import Mathlib

/-!
Shallow embedding of drivers/media/platform/sunxi/sun4i-csi/sun4i_csi1.c
(Allwinner A10/A20 CMOS sensor interface 1 V4L2 capture driver).

Machine integers are modelled as Nat; register values are 32-bit and the
only place where wrap-around semantics matter is the bitwise complement in
the masked register write, which is rendered as xor with 0xFFFFFFFF exactly
as a 32-bit `~mask` behaves.  MMIO register state is a function from byte
offsets to values.  The side effects that the claims talk about
(lock/unlock of the shared buffer spinlock, DMA allocation and freeing,
clock and reset control calls, buffer completion, sequence tagging and
timestamping) are recorded in explicit event traces.
-/

/- Register map, from the SUN4I_CSI1_* defines in the source. -/

def SUN4I_CSI1_ENABLE : Nat := 0x000
def SUN4I_CSI1_CONFIG : Nat := 0x004
def SUN4I_CSI1_CAPTURE : Nat := 0x008
def SUN4I_CSI1_SCALE : Nat := 0x00C
def SUN4I_CSI1_FIFO0_BUFFER_A : Nat := 0x010
def SUN4I_CSI1_FIFO0_BUFFER_B : Nat := 0x014
def SUN4I_CSI1_FIFO1_BUFFER_A : Nat := 0x018
def SUN4I_CSI1_FIFO1_BUFFER_B : Nat := 0x01C
def SUN4I_CSI1_FIFO2_BUFFER_A : Nat := 0x020
def SUN4I_CSI1_FIFO2_BUFFER_B : Nat := 0x024
def SUN4I_CSI1_BUFFER_CONTROL : Nat := 0x028
def SUN4I_CSI1_BUFFER_STATUS : Nat := 0x02C
def SUN4I_CSI1_INT_ENABLE : Nat := 0x030
def SUN4I_CSI1_INT_STATUS : Nat := 0x034
def SUN4I_CSI1_HSIZE : Nat := 0x040
def SUN4I_CSI1_VSIZE : Nat := 0x044
def SUN4I_CSI1_STRIDE : Nat := 0x048

/-- Value computed by sun4i_csi1_mask: temp = readl; temp &= ~mask;
value &= mask; writel(value | temp).  The 32-bit complement ~mask is
mask xor 0xFFFFFFFF. -/
def sun4i_csi1_mask_value (temp value mask : Nat) : Nat :=
  (value &&& mask) ||| (temp &&& (mask ^^^ 0xFFFFFFFF))

/-- struct sun4i_csi1_buffer: a consumer buffer handle with one DMA
address per colour plane (dma_addr[3] in the source). -/
structure Buffer where
  id : Nat
  dma0 : Nat
  dma1 : Nat
  dma2 : Nat
deriving DecidableEq, Repr

/-- struct v4l2_plane_pix_format, the two fields the driver touches. -/
structure PlaneFormat where
  sizeimage : Nat
  bytesperline : Nat
deriving DecidableEq, Repr

/-- struct v4l2_pix_format_mplane, the fields the driver touches;
plane_fmt is the fixed 3-slot array the driver uses. -/
structure PixFormatMp where
  width : Nat
  height : Nat
  pixelformat : Nat
  field : Nat
  colorspace : Nat
  num_planes : Nat
  plane_fmt0 : PlaneFormat
  plane_fmt1 : PlaneFormat
  plane_fmt2 : PlaneFormat
  ycbcr_enc : Nat
  quantization : Nat
  xfer_func : Nat
deriving DecidableEq, Repr

/-- struct v4l2_format restricted to the multiplanar capture union arm. -/
structure V4l2Format where
  type : Nat
  pix_mp : PixFormatMp
deriving DecidableEq, Repr

/- V4L2 enum constants (opaque tags; only their distinctness matters). -/

def V4L2_BUF_TYPE_VIDEO_CAPTURE_MPLANE : Nat := 9
def V4L2_PIX_FMT_YUV444M : Nat := 0x34324D59
def V4L2_FIELD_NONE : Nat := 1
def V4L2_COLORSPACE_RAW : Nat := 11
def V4L2_YCBCR_ENC_DEFAULT : Nat := 0
def V4L2_QUANTIZATION_DEFAULT : Nat := 0
def V4L2_XFER_FUNC_NONE : Nat := 5

/-- struct sun4i_csi1: the driver state the claims are about.
regs is the MMIO register file; buffer_list is the pending FIFO
(struct list_head buffer_list); buffers0/buffers1 are the two hardware
slots (struct sun4i_csi1_buffer *buffers[2]); dummy_virt/dummy_dma model
struct dummy_buffer (virtual[3] as Option, NULL = none); vb2_bufs models
the vb2 queue's array of allocated buffers (queue->bufs). -/
structure Csi1 where
  regs : Nat → Nat
  powered : Bool
  plane_count : Nat
  plane_size : Nat
  width : Nat
  height : Nat
  hdisplay_start : Nat
  vdisplay_start : Nat
  hsync_polarity : Bool
  vsync_polarity : Bool
  v4l2_format : V4l2Format
  buffer_list : List Buffer
  vb2_bufs : List Buffer
  buffers0 : Option Buffer
  buffers1 : Option Buffer
  sequence : Nat
  dummy_virt0 : Option Nat
  dummy_virt1 : Option Nat
  dummy_virt2 : Option Nat
  dummy_dma0 : Nat
  dummy_dma1 : Nat
  dummy_dma2 : Nat

/-- Side effects recorded while executing the embedded driver code. -/
inductive Event where
  | lock
  | unlock
  | regWrite (address value : Nat)
  | timestampSet (bufId : Nat)
  | sequenceSet (bufId seq : Nat)
  | bufferDone (bufId : Nat) (err : Bool)
  | dmaAlloc (plane : Nat) (ok : Bool)
  | dmaFree (plane : Nat)
  | resetDeassert
  | resetAssert
  | busClkEnable
  | busClkDisable
  | ramClkEnable
  | ramClkDisable
  | moduleClkSetRate (rate : Nat)
  | moduleClkEnable
  | moduleClkDisable
deriving DecidableEq, Repr

/-- Point update of the register file (writel at one offset). -/
def regUpdate (regs : Nat → Nat) (address value : Nat) : Nat → Nat :=
  fun a => if a = address then value else regs a

/-- sun4i_csi1_write: writel(value, csi->mmio + address). -/
def sun4i_csi1_write (csi : Csi1) (address value : Nat) : Csi1 :=
  { csi with regs := regUpdate csi.regs address value }

/-- sun4i_csi1_mask: read-modify-write of one register under a mask. -/
def sun4i_csi1_mask (csi : Csi1) (address value mask : Nat) : Csi1 :=
  sun4i_csi1_write csi address
    (sun4i_csi1_mask_value (csi.regs address) value mask)

/-- csi->buffers[i] for i computed as sequence & 1. -/
def slotGet (csi : Csi1) (i : Nat) : Option Buffer :=
  if i = 0 then csi.buffers0 else csi.buffers1

/-- csi->buffers[i] = b. -/
def slotSet (csi : Csi1) (i : Nat) (b : Option Buffer) : Csi1 :=
  if i = 0 then { csi with buffers0 := b } else { csi with buffers1 := b }

/-- The three per-plane FIFO buffer-pointer writes of sun4i_csi1_frame_done:
slot A registers when index is 0 (if (!index) in the source), slot B
registers otherwise. -/
def fifoProgram (csi : Csi1) (index d0 d1 d2 : Nat) : Csi1 × List Event :=
  if index = 0 then
    (sun4i_csi1_write (sun4i_csi1_write (sun4i_csi1_write csi
        SUN4I_CSI1_FIFO0_BUFFER_A d0) SUN4I_CSI1_FIFO1_BUFFER_A d1)
        SUN4I_CSI1_FIFO2_BUFFER_A d2,
     [Event.regWrite SUN4I_CSI1_FIFO0_BUFFER_A d0,
      Event.regWrite SUN4I_CSI1_FIFO1_BUFFER_A d1,
      Event.regWrite SUN4I_CSI1_FIFO2_BUFFER_A d2])
  else
    (sun4i_csi1_write (sun4i_csi1_write (sun4i_csi1_write csi
        SUN4I_CSI1_FIFO0_BUFFER_B d0) SUN4I_CSI1_FIFO1_BUFFER_B d1)
        SUN4I_CSI1_FIFO2_BUFFER_B d2,
     [Event.regWrite SUN4I_CSI1_FIFO0_BUFFER_B d0,
      Event.regWrite SUN4I_CSI1_FIFO1_BUFFER_B d1,
      Event.regWrite SUN4I_CSI1_FIFO2_BUFFER_B d2])

/-- sun4i_csi1_frame_done, the ISR-context double-buffer swap.  Returns
none when the code would dereference a NULL csi->buffers[index] (the slot
held the scratch buffer).  The event list records the spinlock critical
section, register writes, and the post-unlock timestamping, sequence
tagging and vb2_buffer_done(VB2_BUF_STATE_DONE) delivery, in program
order. -/
def sun4i_csi1_frame_done (csi : Csi1) : Option (Csi1 × List Event) :=
  let sequence := csi.sequence
  let index := sequence &&& 0x01
  match (if index = 0 then csi.buffers0 else csi.buffers1) with
  | none => none
  | some old =>
    match csi.buffer_list with
    | [] =>
      let enableValue :=
        sun4i_csi1_mask_value (csi.regs SUN4I_CSI1_ENABLE) 0 0x01
      let csi' := sun4i_csi1_mask { csi with sequence := sequence + 1 }
        SUN4I_CSI1_ENABLE 0 0x01
      let csi' := slotSet csi' index none
      let p := fifoProgram csi' index csi.dummy_dma0 csi.dummy_dma1
        csi.dummy_dma2
      some (p.1,
        Event.lock ::
          (Event.regWrite SUN4I_CSI1_ENABLE enableValue :: p.2) ++
          [Event.unlock, Event.timestampSet old.id,
           Event.sequenceSet old.id sequence, Event.bufferDone old.id false])
    | new :: rest =>
      let csi' := { csi with sequence := sequence + 1, buffer_list := rest }
      let csi' := slotSet csi' index (some new)
      let p := fifoProgram csi' index new.dma0 new.dma1 new.dma2
      some (p.1,
        Event.lock :: p.2 ++
          [Event.unlock, Event.timestampSet old.id,
           Event.sequenceSet old.id sequence, Event.bufferDone old.id false])

/-- Pairs (buffer id, tagged sequence number) of buffers delivered to the
consumer in an event trace. -/
def deliveredSeqs (ev : List Event) : List (Nat × Nat) :=
  ev.filterMap (fun e =>
    match e with
    | Event.sequenceSet i s => some (i, s)
    | _ => none)

/-- Iterate the frame-done swap n times, collecting the deliveries. -/
def frameDoneRun (csi : Csi1) : Nat → Option (Csi1 × List (Nat × Nat))
  | 0 => some (csi, [])
  | n + 1 =>
    match sun4i_csi1_frame_done csi with
    | none => none
    | some (csi', ev) =>
      match frameDoneRun csi' n with
      | none => none
      | some (csiF, ds) => some (csiF, deliveredSeqs ev ++ ds)

/-- A single register access of the engine-start programming sequence:
a plain write or a masked read-modify-write. -/
inductive RegOp where
  | wr (address value : Nat)
  | msk (address value mask : Nat)
deriving DecidableEq, Repr

/-- Apply a sequence of register accesses in program order; a masked
access reads the register value current at its own position, as the C
read-modify-write does. -/
def applyRegOps : Csi1 → List RegOp → Csi1
  | csi, [] => csi
  | csi, RegOp.wr a v :: rest => applyRegOps (sun4i_csi1_write csi a v) rest
  | csi, RegOp.msk a v m :: rest =>
    applyRegOps (sun4i_csi1_mask csi a v m) rest

/-- sun4i_csi1_engine_start: seed both hardware slots from the head of
the pending FIFO, then program input/output format, sync polarities,
both slots' plane addresses, double buffering, the frame-done
interrupt, geometry and stride, and finally assert the capture-enable
bit, all under the buffer lock.  The register accesses are listed in
the order the C function performs them.  Returns none when fewer than
two buffers are queued (the C list_first_entry calls would misbehave);
the vb2 core guarantees at least min_buffers_needed queued buffers
before this runs. -/
def sun4i_csi1_engine_start (csi : Csi1) : Option Csi1 :=
  match csi.buffer_list with
  | b0 :: b1 :: rest =>
    let csi := { csi with
      sequence := 0, buffers0 := some b0, buffers1 := some b1,
      buffer_list := rest }
    some (applyRegOps csi
      [RegOp.msk SUN4I_CSI1_CONFIG 0x00400000 0x00700000,
       RegOp.msk SUN4I_CSI1_CONFIG 0x000C0000 0x000F0000,
       (if csi.vsync_polarity then RegOp.msk SUN4I_CSI1_CONFIG 0x04 0x04
        else RegOp.msk SUN4I_CSI1_CONFIG 0 0x04),
       (if csi.hsync_polarity then RegOp.msk SUN4I_CSI1_CONFIG 0x02 0x02
        else RegOp.msk SUN4I_CSI1_CONFIG 0 0x02),
       RegOp.msk SUN4I_CSI1_CONFIG 0 0x01,
       RegOp.wr SUN4I_CSI1_FIFO0_BUFFER_A b0.dma0,
       RegOp.wr SUN4I_CSI1_FIFO1_BUFFER_A b0.dma1,
       RegOp.wr SUN4I_CSI1_FIFO2_BUFFER_A b0.dma2,
       RegOp.wr SUN4I_CSI1_FIFO0_BUFFER_B b1.dma0,
       RegOp.wr SUN4I_CSI1_FIFO1_BUFFER_B b1.dma1,
       RegOp.wr SUN4I_CSI1_FIFO2_BUFFER_B b1.dma2,
       RegOp.wr SUN4I_CSI1_BUFFER_CONTROL 0x01,
       RegOp.msk SUN4I_CSI1_INT_ENABLE 0x02 0x02,
       RegOp.msk SUN4I_CSI1_HSIZE (csi.width <<< 16) 0x1FFF0000,
       RegOp.msk SUN4I_CSI1_HSIZE csi.hdisplay_start 0x1FFF,
       RegOp.msk SUN4I_CSI1_VSIZE (csi.height <<< 16) 0x1FFF0000,
       RegOp.msk SUN4I_CSI1_VSIZE csi.vdisplay_start 0x1FFF,
       RegOp.msk SUN4I_CSI1_STRIDE csi.width 0x1FFF,
       RegOp.msk SUN4I_CSI1_CAPTURE 0x02 0x02])
  | _ => none

/-- sun4i_csi1_engine_stop: sun4i_csi1_write_spin(csi, CAPTURE, 0). -/
def sun4i_csi1_engine_stop (csi : Csi1) : Csi1 × List Event :=
  (sun4i_csi1_write csi SUN4I_CSI1_CAPTURE 0,
   [Event.lock, Event.regWrite SUN4I_CSI1_CAPTURE 0, Event.unlock])

/-- Results of the fallible clock/reset environment calls: 0 is success,
nonzero the propagated error code.  clk_disable_unprepare returns void in
C; reset_assert models the ignored return of reset_control_assert. -/
structure ClkEnv where
  reset_deassert : Int
  bus_enable : Int
  ram_enable : Int
  module_enable : Int
  reset_assert : Int
deriving DecidableEq, Repr

/-- sun4i_csi1_poweron: deassert reset, enable bus clock, enable RAM
clock, set rate and enable module clock, then set the module-enable bit;
each failure takes the goto chain that tears down the already-completed
steps in reverse order and returns the error.  The event list is the
sequence of clock/reset calls made. -/
def sun4i_csi1_poweron (env : ClkEnv) (csi : Csi1) :
    Int × Csi1 × List Event :=
  if env.reset_deassert ≠ 0 then
    (env.reset_deassert, csi, [Event.resetDeassert])
  else if env.bus_enable ≠ 0 then
    (env.bus_enable, csi,
     [Event.resetDeassert, Event.busClkEnable, Event.resetAssert])
  else if env.ram_enable ≠ 0 then
    (env.ram_enable, csi,
     [Event.resetDeassert, Event.busClkEnable, Event.ramClkEnable,
      Event.busClkDisable, Event.resetAssert])
  else if env.module_enable ≠ 0 then
    (env.module_enable, csi,
     [Event.resetDeassert, Event.busClkEnable, Event.ramClkEnable,
      Event.moduleClkSetRate 24000000, Event.moduleClkEnable,
      Event.ramClkDisable, Event.busClkDisable, Event.resetAssert])
  else
    (0, sun4i_csi1_mask csi SUN4I_CSI1_ENABLE 0x01 0x01,
     [Event.resetDeassert, Event.busClkEnable, Event.ramClkEnable,
      Event.moduleClkSetRate 24000000, Event.moduleClkEnable,
      Event.lock,
      Event.regWrite SUN4I_CSI1_ENABLE
        (sun4i_csi1_mask_value (csi.regs SUN4I_CSI1_ENABLE) 0x01 0x01),
      Event.unlock])

/-- sun4i_csi1_poweroff: clear the module-enable bit, then disable module
clock, RAM clock, bus clock and assert reset; all return values are
ignored (the env never influences the result). -/
def sun4i_csi1_poweroff (env : ClkEnv) (csi : Csi1) :
    Int × Csi1 × List Event :=
  let _ := env
  (0, sun4i_csi1_mask csi SUN4I_CSI1_ENABLE 0 0x01,
   [Event.lock,
    Event.regWrite SUN4I_CSI1_ENABLE
      (sun4i_csi1_mask_value (csi.regs SUN4I_CSI1_ENABLE) 0 0x01),
    Event.unlock,
    Event.moduleClkDisable, Event.ramClkDisable, Event.busClkDisable,
    Event.resetAssert])

/-- sun4i_csi1_streaming_start (vb2 start_streaming): power on; on
failure return the error with the state untouched (powered stays false);
on success set powered and run the engine start. -/
def sun4i_csi1_streaming_start (env : ClkEnv) (csi : Csi1) :
    Option (Int × Csi1) :=
  let p := sun4i_csi1_poweron env csi
  if p.1 ≠ 0 then some (p.1, p.2.1)
  else
    let csi := { p.2.1 with powered := true }
    match sun4i_csi1_engine_start csi with
    | some csi => some (0, csi)
    | none => none

/-- Modelled from the spec: the vb2 core marks a buffer ACTIVE while it
is owned by the driver, that is queued on the pending list or installed
in a hardware slot, and no longer ACTIVE once vb2_buffer_done has been
called on it; vb2 core code is not part of the extracted sources. -/
def vb2_buffer_active (csi : Csi1) (b : Buffer) : Bool :=
  decide (b ∈ csi.buffer_list) || csi.buffers0 == some b ||
    csi.buffers1 == some b

/-- sun4i_csi1_buffers_mark_done: walk every buffer of the vb2 queue,
list_del it from the pending list under the lock, and complete it with
VB2_BUF_STATE_ERROR when it is still ACTIVE. -/
def sun4i_csi1_buffers_mark_done (csi : Csi1) : Csi1 × List Event :=
  ({ csi with
     buffer_list := csi.buffer_list.filter
       (fun b => !(csi.vb2_bufs.contains b)) },
   csi.vb2_bufs.flatMap (fun b =>
     [Event.lock, Event.unlock] ++
       (if vb2_buffer_active csi b then [Event.bufferDone b.id true]
        else [])))

/-- sun4i_csi1_buffer_list_clear: pop the pending list head under the
lock until empty, completing each popped buffer with
VB2_BUF_STATE_ERROR outside the lock. -/
def sun4i_csi1_buffer_list_clear (csi : Csi1) : Csi1 × List Event :=
  ({ csi with buffer_list := [] },
   csi.buffer_list.flatMap (fun b =>
     [Event.lock, Event.unlock, Event.bufferDone b.id true]) ++
     [Event.lock, Event.unlock])

/-- sun4i_csi1_streaming_stop (vb2 stop_streaming): stop the engine,
mark the queue buffers done, clear the pending list, power off, clear
powered. -/
def sun4i_csi1_streaming_stop (env : ClkEnv) (csi : Csi1) :
    Csi1 × List Event :=
  let p0 := sun4i_csi1_engine_stop csi
  let p1 := sun4i_csi1_buffers_mark_done p0.1
  let p2 := sun4i_csi1_buffer_list_clear p1.1
  let p3 := sun4i_csi1_poweroff env p2.1
  ({ p3.2.1 with powered := false }, p0.2 ++ p1.2 ++ p2.2 ++ p3.2.2)

/-- dummy->virtual[i] (NULL modelled as none; indices past the fixed
3-element array read as NULL). -/
def dummyVirt (csi : Csi1) : Nat → Option Nat
  | 0 => csi.dummy_virt0
  | 1 => csi.dummy_virt1
  | 2 => csi.dummy_virt2
  | _ => none

/-- Store one successful dma_alloc_coherent result into
dummy->virtual[i] and dummy->dma_addr[i]. -/
def dummySet (csi : Csi1) (i addr : Nat) : Csi1 :=
  match i with
  | 0 => { csi with dummy_virt0 := some addr, dummy_dma0 := addr }
  | 1 => { csi with dummy_virt1 := some addr, dummy_dma1 := addr }
  | 2 => { csi with dummy_virt2 := some addr, dummy_dma2 := addr }
  | _ => csi

/-- sun4i_csi1_dummy_buffer_free: under the lock, move every non-NULL
plane allocation out of the dummy buffer and clear its slots; after
unlocking, dma_free_coherent each moved allocation.  Always returns 0. -/
def sun4i_csi1_dummy_buffer_free (csi : Csi1) : Int × Csi1 × List Event :=
  let freed := (List.range csi.plane_count).filter
    (fun i => (dummyVirt csi i).isSome)
  let csi' := { csi with
    dummy_virt0 := if 0 < csi.plane_count then none else csi.dummy_virt0,
    dummy_dma0 := if 0 < csi.plane_count ∧ csi.dummy_virt0.isSome then 0
      else csi.dummy_dma0,
    dummy_virt1 := if 1 < csi.plane_count then none else csi.dummy_virt1,
    dummy_dma1 := if 1 < csi.plane_count ∧ csi.dummy_virt1.isSome then 0
      else csi.dummy_dma1,
    dummy_virt2 := if 2 < csi.plane_count then none else csi.dummy_virt2,
    dummy_dma2 := if 2 < csi.plane_count ∧ csi.dummy_virt2.isSome then 0
      else csi.dummy_dma2 }
  (0, csi', [Event.lock, Event.unlock] ++ freed.map Event.dmaFree)

/-- The per-plane dma_alloc_coherent loop of
sun4i_csi1_dummy_buffer_alloc, with dmaEnv giving the allocator outcome
per plane; the loop breaks at the first failed allocation. -/
def allocLoop (dmaEnv : Nat → Option Nat) :
    List Nat → Csi1 → Csi1 × List Event × Bool
  | [], csi => (csi, [], true)
  | i :: rest, csi =>
    match dmaEnv i with
    | none => (csi, [Event.dmaAlloc i false], false)
    | some addr =>
      let p := allocLoop dmaEnv rest (dummySet csi i addr)
      (p.1, Event.dmaAlloc i true :: p.2.1, p.2.2)

/-- sun4i_csi1_dummy_buffer_alloc: free any previous allocation first,
then take the buffer lock and dma_alloc_coherent each plane inside the
critical section; on partial failure unlock, free what was allocated and
return -ENOMEM. -/
def sun4i_csi1_dummy_buffer_alloc (dmaEnv : Nat → Option Nat)
    (csi : Csi1) : Int × Csi1 × List Event :=
  let pf := sun4i_csi1_dummy_buffer_free csi
  let pa := allocLoop dmaEnv (List.range pf.2.1.plane_count) pf.2.1
  if pa.2.2 then
    (0, pa.1, pf.2.2 ++ Event.lock :: pa.2.1 ++ [Event.unlock])
  else
    let pf2 := sun4i_csi1_dummy_buffer_free pa.1
    (-12, pf2.2.1,
     pf.2.2 ++ Event.lock :: pa.2.1 ++ [Event.unlock] ++ pf2.2.2)

/-- True when some dmaAlloc event occurs while the spinlock depth
accumulated from the preceding lock/unlock events is positive. -/
def allocUnderLock : List Event → Nat → Bool
  | [], _ => false
  | Event.lock :: rest, depth => allocUnderLock rest (depth + 1)
  | Event.unlock :: rest, depth => allocUnderLock rest (depth - 1)
  | Event.dmaAlloc _ _ :: rest, depth =>
    decide (0 < depth) || allocUnderLock rest depth
  | _ :: rest, depth => allocUnderLock rest depth

/-- queue->min_buffers_needed = 3, set in
sun4i_csi1_vb2_queue_initialize. -/
def vb2_min_buffers_needed : Nat := 3

/-- Errors surfaced by the modelled vb2 streamon path. -/
inductive Verr where
  | insufficientBuffers
  | startFailed (e : Int)
deriving DecidableEq, Repr

/-- Modelled from the spec: the vb2 core's streamon path refuses to
start streaming with fewer than min_buffers_needed queued buffers,
failing with an insufficient-buffers error before calling the driver's
start_streaming; vb2 core code is not part of the extracted sources.
The error arm carries the post-call driver state. -/
def vb2_streamon (env : ClkEnv) (csi : Csi1) :
    Option (Except (Verr × Csi1) Csi1) :=
  if csi.buffer_list.length < vb2_min_buffers_needed then
    some (Except.error (Verr.insufficientBuffers, csi))
  else
    match sun4i_csi1_streaming_start env csi with
    | some (e, csi') =>
      if e = 0 then some (Except.ok csi')
      else some (Except.error (Verr.startFailed e, csi'))
    | none => none

/-- plane_fmt[i] of the fixed 3-slot array. -/
def planeFmt (p : PixFormatMp) : Nat → PlaneFormat
  | 0 => p.plane_fmt0
  | 1 => p.plane_fmt1
  | 2 => p.plane_fmt2
  | _ => { sizeimage := 0, bytesperline := 0 }

/-- sun4i_csi1_format_test: compare a requested format against the
stored one; returns -EINVAL ( -22 ) at the first mismatch of buffer
type, dimensions, plane count, per-plane geometry, or the remaining
pixel format fields, else 0. -/
def sun4i_csi1_format_test (csi : Csi1) (fnew : V4l2Format) : Int :=
  let old := csi.v4l2_format.pix_mp
  let np := fnew.pix_mp
  if csi.v4l2_format.type ≠ fnew.type then -22
  else if csi.width ≠ np.width ∨ csi.height ≠ np.height ∨
      csi.plane_count ≠ np.num_planes then -22
  else if (List.range csi.plane_count).any (fun i =>
      csi.width != (planeFmt np i).bytesperline ||
      csi.plane_size != (planeFmt np i).sizeimage) then -22
  else if old.pixelformat ≠ np.pixelformat ∨ old.field ≠ np.field ∨
      old.colorspace ≠ np.colorspace ∨
      old.quantization ≠ np.quantization ∨
      old.xfer_func ≠ np.xfer_func then -22
  else 0

/-- sun4i_csi1_ioctl_format_set: returns the format test verdict and
changes nothing. -/
def sun4i_csi1_ioctl_format_set (csi : Csi1) (format : V4l2Format) :
    Csi1 × Int :=
  (csi, sun4i_csi1_format_test csi format)

/-- sun4i_csi1_format_initialize: install the fixed planar YUV444
format for the given geometry. -/
def sun4i_csi1_format_initialize (csi : Csi1) (width height : Nat)
    (hsync_polarity vsync_polarity : Bool) : Csi1 :=
  let plane : PlaneFormat :=
    { sizeimage := width * height, bytesperline := width }
  { csi with
    plane_count := 3,
    plane_size := width * height,
    width := width,
    height := height,
    hsync_polarity := hsync_polarity,
    vsync_polarity := vsync_polarity,
    v4l2_format :=
      { type := V4L2_BUF_TYPE_VIDEO_CAPTURE_MPLANE,
        pix_mp :=
          { width := width, height := height,
            pixelformat := V4L2_PIX_FMT_YUV444M,
            field := V4L2_FIELD_NONE,
            colorspace := V4L2_COLORSPACE_RAW,
            num_planes := 3,
            plane_fmt0 := plane, plane_fmt1 := plane, plane_fmt2 := plane,
            ycbcr_enc := V4L2_YCBCR_ENC_DEFAULT,
            quantization := V4L2_QUANTIZATION_DEFAULT,
            xfer_func := V4L2_XFER_FUNC_NONE } } }

/-- All-zero placeholder format, the kzalloc'd initial contents of
csi->v4l2_format before sun4i_csi1_format_initialize runs. -/
def fmtZero : V4l2Format :=
  { type := 0,
    pix_mp :=
      { width := 0, height := 0, pixelformat := 0, field := 0,
        colorspace := 0, num_planes := 0,
        plane_fmt0 := { sizeimage := 0, bytesperline := 0 },
        plane_fmt1 := { sizeimage := 0, bytesperline := 0 },
        plane_fmt2 := { sizeimage := 0, bytesperline := 0 },
        ycbcr_enc := 0, quantization := 0, xfer_func := 0 } }

/-- Freshly probed driver state: kzalloc'd struct followed by
sun4i_csi1_format_initialize(csi, 1920, 1080, false, false) as done in
sun4i_csi1_v4l2_initialize, with hdisplay_start 148 and vdisplay_start
36 from the ctrl handler defaults. -/
def csiBase : Csi1 :=
  sun4i_csi1_format_initialize
    { regs := fun _ => 0, powered := false, plane_count := 0,
      plane_size := 0, width := 0, height := 0,
      hdisplay_start := 148, vdisplay_start := 36,
      hsync_polarity := false, vsync_polarity := false,
      v4l2_format := fmtZero, buffer_list := [], vb2_bufs := [],
      buffers0 := none, buffers1 := none, sequence := 0,
      dummy_virt0 := none, dummy_virt1 := none, dummy_virt2 := none,
      dummy_dma0 := 0, dummy_dma1 := 0, dummy_dma2 := 0 }
    1920 1080 false false

/-- Concrete consumer buffers used by the witnesses. -/
def bufA : Buffer := { id := 1, dma0 := 0x1000, dma1 := 0x2000, dma2 := 0x3000 }

/-- Second concrete consumer buffer. -/
def bufB : Buffer := { id := 2, dma0 := 0x4000, dma1 := 0x5000, dma2 := 0x6000 }

/-- Third concrete consumer buffer. -/
def bufC : Buffer := { id := 3, dma0 := 0x7000, dma1 := 0x8000, dma2 := 0x9000 }

/-- A clock/reset environment where every call succeeds. -/
def envOk : ClkEnv :=
  { reset_deassert := 0, bus_enable := 0, ram_enable := 0,
    module_enable := 0, reset_assert := 0 }


/-- The FIFO buffer-pointer register offsets hit by the regWrite events
of a trace, in order. -/
def fifoWriteAddrs (ev : List Event) : List Nat :=
  ev.filterMap (fun e =>
    match e with
    | Event.regWrite a _ =>
      if a = SUN4I_CSI1_FIFO0_BUFFER_A ∨ a = SUN4I_CSI1_FIFO0_BUFFER_B ∨
          a = SUN4I_CSI1_FIFO1_BUFFER_A ∨ a = SUN4I_CSI1_FIFO1_BUFFER_B ∨
          a = SUN4I_CSI1_FIFO2_BUFFER_A ∨ a = SUN4I_CSI1_FIFO2_BUFFER_B
      then some a else none
    | _ => none)

/-- Streaming state in which the queue has just run dry: both slots
seeded, pending list empty, module enabled and capture-enable bit
asserted (as engine_start leaves them), scratch buffer allocated. -/
def csiStarve : Csi1 :=
  { csiBase with
    buffers0 := some bufA, buffers1 := some bufB, buffer_list := [],
    vb2_bufs := [bufA, bufB],
    dummy_virt0 := some 7, dummy_virt1 := some 8, dummy_virt2 := some 9,
    dummy_dma0 := 77, dummy_dma1 := 88, dummy_dma2 := 99,
    powered := true,
    regs := fun a =>
      if a = SUN4I_CSI1_CAPTURE then 2
      else if a = SUN4I_CSI1_ENABLE then 1 else 0 }

/-- Stopped-capture state that still holds a scratch allocation. -/
def csiStop : Csi1 :=
  { csiBase with
    dummy_virt0 := some 7, dummy_virt1 := some 8, dummy_virt2 := some 9,
    dummy_dma0 := 77, dummy_dma1 := 88, dummy_dma2 := 99,
    powered := true }

/-- Active streaming state: both slots seeded, one pending buffer, all
three buffers known to the vb2 queue, scratch allocated. -/
def csiActive : Csi1 :=
  { csiBase with
    buffers0 := some bufA, buffers1 := some bufB, buffer_list := [bufC],
    vb2_bufs := [bufA, bufB, bufC], powered := true,
    dummy_virt0 := some 7, dummy_virt1 := some 8, dummy_virt2 := some 9,
    dummy_dma0 := 77, dummy_dma1 := 88, dummy_dma2 := 99 }

/-! Helper lemmas: projections of the register-write operations. -/

@[simp] theorem write_regs (csi : Csi1) (a v a' : Nat) :
    (sun4i_csi1_write csi a v).regs a' = if a' = a then v else csi.regs a' :=
  rfl

@[simp] theorem write_powered (csi : Csi1) (a v : Nat) :
    (sun4i_csi1_write csi a v).powered = csi.powered := rfl

@[simp] theorem write_sequence (csi : Csi1) (a v : Nat) :
    (sun4i_csi1_write csi a v).sequence = csi.sequence := rfl

@[simp] theorem write_buffer_list (csi : Csi1) (a v : Nat) :
    (sun4i_csi1_write csi a v).buffer_list = csi.buffer_list := rfl

@[simp] theorem write_vb2_bufs (csi : Csi1) (a v : Nat) :
    (sun4i_csi1_write csi a v).vb2_bufs = csi.vb2_bufs := rfl

@[simp] theorem write_buffers0 (csi : Csi1) (a v : Nat) :
    (sun4i_csi1_write csi a v).buffers0 = csi.buffers0 := rfl

@[simp] theorem write_buffers1 (csi : Csi1) (a v : Nat) :
    (sun4i_csi1_write csi a v).buffers1 = csi.buffers1 := rfl

@[simp] theorem write_plane_count (csi : Csi1) (a v : Nat) :
    (sun4i_csi1_write csi a v).plane_count = csi.plane_count := rfl

@[simp] theorem write_dummy_virt0 (csi : Csi1) (a v : Nat) :
    (sun4i_csi1_write csi a v).dummy_virt0 = csi.dummy_virt0 := rfl

@[simp] theorem write_dummy_virt1 (csi : Csi1) (a v : Nat) :
    (sun4i_csi1_write csi a v).dummy_virt1 = csi.dummy_virt1 := rfl

@[simp] theorem write_dummy_virt2 (csi : Csi1) (a v : Nat) :
    (sun4i_csi1_write csi a v).dummy_virt2 = csi.dummy_virt2 := rfl

@[simp] theorem write_dummy_dma0 (csi : Csi1) (a v : Nat) :
    (sun4i_csi1_write csi a v).dummy_dma0 = csi.dummy_dma0 := rfl

@[simp] theorem write_dummy_dma1 (csi : Csi1) (a v : Nat) :
    (sun4i_csi1_write csi a v).dummy_dma1 = csi.dummy_dma1 := rfl

@[simp] theorem write_dummy_dma2 (csi : Csi1) (a v : Nat) :
    (sun4i_csi1_write csi a v).dummy_dma2 = csi.dummy_dma2 := rfl

/-- C10: the masked register write stores (old AND NOT mask) OR
(value AND mask): for every bit position below 32, the stored bit comes
from the written value inside the mask and from the old register value
outside it, and every other register offset is left unchanged. -/
theorem csi1_mask_bit_spec (csi : Csi1) (address value mask : Nat)
    (i : Nat) (hi : i < 32) (a' : Nat) (ha : a' ≠ address) :
    ((sun4i_csi1_mask csi address value mask).regs address).testBit i =
      (if mask.testBit i then value.testBit i
       else (csi.regs address).testBit i) ∧
    (sun4i_csi1_mask csi address value mask).regs a' = csi.regs a' := by
  constructor
  · have h32 : Nat.testBit 0xFFFFFFFF i = true := by
      have he : (0xFFFFFFFF : Nat) = 2 ^ 32 - 1 := by norm_num
      rw [he, Nat.testBit_two_pow_sub_one]
      simpa using hi
    simp only [sun4i_csi1_mask, write_regs, if_pos rfl,
      sun4i_csi1_mask_value, Nat.testBit_or, Nat.testBit_and,
      Nat.testBit_xor, h32]
    cases hmb : mask.testBit i <;> cases hv : value.testBit i <;>
      cases ho : (csi.regs address).testBit i <;> simp [hmb, hv, ho, h32]
  · simp [sun4i_csi1_mask, ha]

/-- Witness for C10 at the enable register of the freshly probed state,
bit 0, with untouched offset 4. -/
theorem csi1_mask_bit_spec_witness :
    (0 : Nat) < 32 ∧ (4 : Nat) ≠ SUN4I_CSI1_ENABLE ∧
    (((sun4i_csi1_mask csiBase SUN4I_CSI1_ENABLE 1 1).regs
        SUN4I_CSI1_ENABLE).testBit 0 =
      (if (1 : Nat).testBit 0 then (1 : Nat).testBit 0
       else (csiBase.regs SUN4I_CSI1_ENABLE).testBit 0) ∧
     (sun4i_csi1_mask csiBase SUN4I_CSI1_ENABLE 1 1).regs 4 =
       csiBase.regs 4) :=
  ⟨by decide, by decide,
   csi1_mask_bit_spec csiBase SUN4I_CSI1_ENABLE 1 1 0 (by decide) 4
     (by decide)⟩

/-- C4: the power-up sequence is deassert reset, enable bus clock,
enable RAM clock, set and enable module clock; each failure tears down
exactly the already-completed steps in reverse order before propagating
the error; in particular a module-clock failure after bus and RAM
succeeded disables both clocks and re-asserts reset, the error is
returned by start_streaming and the driver state (powered included) is
returned unchanged, so the state machine stays Stopped. -/
theorem poweron_unwind_spec (env : ClkEnv) (csi : Csi1) :
    (env.reset_deassert ≠ 0 →
      sun4i_csi1_poweron env csi =
        (env.reset_deassert, csi, [Event.resetDeassert])) ∧
    (env.reset_deassert = 0 → env.bus_enable ≠ 0 →
      sun4i_csi1_poweron env csi =
        (env.bus_enable, csi,
         [Event.resetDeassert, Event.busClkEnable, Event.resetAssert])) ∧
    (env.reset_deassert = 0 → env.bus_enable = 0 → env.ram_enable ≠ 0 →
      sun4i_csi1_poweron env csi =
        (env.ram_enable, csi,
         [Event.resetDeassert, Event.busClkEnable, Event.ramClkEnable,
          Event.busClkDisable, Event.resetAssert])) ∧
    (env.reset_deassert = 0 → env.bus_enable = 0 → env.ram_enable = 0 →
      env.module_enable ≠ 0 →
      sun4i_csi1_poweron env csi =
        (env.module_enable, csi,
         [Event.resetDeassert, Event.busClkEnable, Event.ramClkEnable,
          Event.moduleClkSetRate 24000000, Event.moduleClkEnable,
          Event.ramClkDisable, Event.busClkDisable, Event.resetAssert]) ∧
      sun4i_csi1_streaming_start env csi = some (env.module_enable, csi)) ∧
    (env.reset_deassert = 0 → env.bus_enable = 0 → env.ram_enable = 0 →
      env.module_enable = 0 →
      sun4i_csi1_poweron env csi =
        (0, sun4i_csi1_mask csi SUN4I_CSI1_ENABLE 0x01 0x01,
         [Event.resetDeassert, Event.busClkEnable, Event.ramClkEnable,
          Event.moduleClkSetRate 24000000, Event.moduleClkEnable,
          Event.lock,
          Event.regWrite SUN4I_CSI1_ENABLE
            (sun4i_csi1_mask_value (csi.regs SUN4I_CSI1_ENABLE) 0x01 0x01),
          Event.unlock])) := by
  refine ⟨?_, ?_, ?_, ?_, ?_⟩
  · intro h1
    simp [sun4i_csi1_poweron, h1]
  · intro h1 h2
    simp [sun4i_csi1_poweron, h1, h2]
  · intro h1 h2 h3
    simp [sun4i_csi1_poweron, h1, h2, h3]
  · intro h1 h2 h3 h4
    refine ⟨by simp [sun4i_csi1_poweron, h1, h2, h3, h4], ?_⟩
    simp [sun4i_csi1_streaming_start, sun4i_csi1_poweron,
      h1, h2, h3, h4]
  · intro h1 h2 h3 h4
    simp [sun4i_csi1_poweron, h1, h2, h3, h4]

/-- Witness for C4: module-clock enable fails with -5 after reset, bus
and RAM succeeded; both clocks are disabled and reset re-asserted, the
error propagates and the state is unchanged. -/
theorem poweron_unwind_spec_witness :
    ({ envOk with module_enable := -5 } : ClkEnv).reset_deassert = 0 ∧
    ({ envOk with module_enable := -5 } : ClkEnv).bus_enable = 0 ∧
    ({ envOk with module_enable := -5 } : ClkEnv).ram_enable = 0 ∧
    ({ envOk with module_enable := -5 } : ClkEnv).module_enable ≠ 0 ∧
    (sun4i_csi1_poweron { envOk with module_enable := -5 } csiBase =
      (({ envOk with module_enable := -5 } : ClkEnv).module_enable, csiBase,
       [Event.resetDeassert, Event.busClkEnable, Event.ramClkEnable,
        Event.moduleClkSetRate 24000000, Event.moduleClkEnable,
        Event.ramClkDisable, Event.busClkDisable, Event.resetAssert]) ∧
     sun4i_csi1_streaming_start { envOk with module_enable := -5 } csiBase =
       some (({ envOk with module_enable := -5 } : ClkEnv).module_enable,
         csiBase)) :=
  ⟨by decide, by decide, by decide, by decide,
   ((poweron_unwind_spec { envOk with module_enable := -5 } csiBase).2.2.2.1
     (by decide) (by decide) (by decide) (by decide))⟩

/-- Helper: after one free, every plane slot of the dummy buffer that
the free loop ranges over reads NULL. -/
theorem dummy_free_clears (csi : Csi1) (i : Nat)
    (hi : i < csi.plane_count) :
    dummyVirt (sun4i_csi1_dummy_buffer_free csi).2.1 i = none := by
  match i with
  | 0 =>
    simp only [sun4i_csi1_dummy_buffer_free, dummyVirt]
    simp [hi]
  | 1 =>
    simp only [sun4i_csi1_dummy_buffer_free, dummyVirt]
    simp [hi]
  | 2 =>
    simp only [sun4i_csi1_dummy_buffer_free, dummyVirt]
    simp [hi]
  | (n + 3) => rfl

/-- Helper: free does not change plane_count. -/
theorem dummy_free_plane_count (csi : Csi1) :
    (sun4i_csi1_dummy_buffer_free csi).2.1.plane_count = csi.plane_count :=
  rfl

/-- C7: the scratch free is idempotent: with no allocation held it
returns success, frees nothing and leaves the dummy-buffer state
intact; a second consecutive free frees nothing further; and a
re-allocation always runs the free first, its trace beginning with the
free trace which contains a dmaFree for every held plane. -/
theorem dummy_buffer_free_idempotent (csi : Csi1)
    (dmaEnv : Nat → Option Nat) :
    (csi.dummy_virt0 = none → csi.dummy_virt1 = none →
      csi.dummy_virt2 = none →
      (sun4i_csi1_dummy_buffer_free csi).1 = 0 ∧
      (sun4i_csi1_dummy_buffer_free csi).2.2 = [Event.lock, Event.unlock] ∧
      (sun4i_csi1_dummy_buffer_free csi).2.1.dummy_virt0 = csi.dummy_virt0 ∧
      (sun4i_csi1_dummy_buffer_free csi).2.1.dummy_virt1 = csi.dummy_virt1 ∧
      (sun4i_csi1_dummy_buffer_free csi).2.1.dummy_virt2 = csi.dummy_virt2 ∧
      (sun4i_csi1_dummy_buffer_free csi).2.1.dummy_dma0 = csi.dummy_dma0 ∧
      (sun4i_csi1_dummy_buffer_free csi).2.1.dummy_dma1 = csi.dummy_dma1 ∧
      (sun4i_csi1_dummy_buffer_free csi).2.1.dummy_dma2 = csi.dummy_dma2) ∧
    ((sun4i_csi1_dummy_buffer_free
        (sun4i_csi1_dummy_buffer_free csi).2.1).1 = 0 ∧
      (sun4i_csi1_dummy_buffer_free
        (sun4i_csi1_dummy_buffer_free csi).2.1).2.2 =
        [Event.lock, Event.unlock]) ∧
    (∃ tail, (sun4i_csi1_dummy_buffer_alloc dmaEnv csi).2.2 =
        (sun4i_csi1_dummy_buffer_free csi).2.2 ++ tail) ∧
    (∀ i, i < csi.plane_count → (dummyVirt csi i).isSome →
      Event.dmaFree i ∈ (sun4i_csi1_dummy_buffer_free csi).2.2) := by
  refine ⟨?_, ⟨rfl, ?_⟩, ?_, ?_⟩
  · intro h0 h1 h2
    refine ⟨rfl, ?_, ?_, ?_, ?_, ?_, ?_, ?_⟩
    · have hnil : (List.range csi.plane_count).filter
          (fun i => (dummyVirt csi i).isSome) = [] := by
        rw [List.filter_eq_nil_iff]
        intro i hi
        match i with
        | 0 => simp [dummyVirt, h0]
        | 1 => simp [dummyVirt, h1]
        | 2 => simp [dummyVirt, h2]
        | (n + 3) => simp [dummyVirt]
      simp [sun4i_csi1_dummy_buffer_free, hnil]
    all_goals
      simp [sun4i_csi1_dummy_buffer_free, h0, h1, h2]
  · have hnil : (List.range
        (sun4i_csi1_dummy_buffer_free csi).2.1.plane_count).filter
        (fun i =>
          (dummyVirt (sun4i_csi1_dummy_buffer_free csi).2.1 i).isSome) =
        [] := by
      rw [List.filter_eq_nil_iff]
      intro i hi
      rw [List.mem_range, dummy_free_plane_count] at hi
      rw [dummy_free_clears csi i hi]
      simp
    conv_lhs => rw [sun4i_csi1_dummy_buffer_free]
    rw [hnil]
    simp
  · have hpre3 : ∀ A B C : List Event, ∃ tail, (A ++ B) ++ C = A ++ tail :=
      fun A B C => ⟨B ++ C, List.append_assoc A B C⟩
    have hpre4 : ∀ A B C D : List Event,
        ∃ tail, ((A ++ B) ++ C) ++ D = A ++ tail :=
      fun A B C D =>
        ⟨B ++ (C ++ D), by rw [List.append_assoc, List.append_assoc]⟩
    simp only [sun4i_csi1_dummy_buffer_alloc]
    split
    · exact hpre3 _ _ _
    · exact hpre4 _ _ _ _
  · intro i hi hsome
    simp only [sun4i_csi1_dummy_buffer_free]
    simp only [List.mem_append, List.mem_cons, List.mem_map]
    right
    exact ⟨i,
      by rw [List.mem_filter]; exact ⟨List.mem_range.mpr hi, hsome⟩, rfl⟩

/-- Witness for C7 at the freshly probed state (nothing allocated) and
at a state holding a full allocation. -/
theorem dummy_buffer_free_idempotent_witness :
    csiBase.dummy_virt0 = none ∧ csiBase.dummy_virt1 = none ∧
    csiBase.dummy_virt2 = none ∧
    ((sun4i_csi1_dummy_buffer_free csiBase).1 = 0 ∧
     (sun4i_csi1_dummy_buffer_free csiBase).2.2 =
       [Event.lock, Event.unlock] ∧
     (sun4i_csi1_dummy_buffer_free csiBase).2.1.dummy_virt0 =
       csiBase.dummy_virt0 ∧
     (sun4i_csi1_dummy_buffer_free csiBase).2.1.dummy_virt1 =
       csiBase.dummy_virt1 ∧
     (sun4i_csi1_dummy_buffer_free csiBase).2.1.dummy_virt2 =
       csiBase.dummy_virt2 ∧
     (sun4i_csi1_dummy_buffer_free csiBase).2.1.dummy_dma0 =
       csiBase.dummy_dma0 ∧
     (sun4i_csi1_dummy_buffer_free csiBase).2.1.dummy_dma1 =
       csiBase.dummy_dma1 ∧
     (sun4i_csi1_dummy_buffer_free csiBase).2.1.dummy_dma2 =
       csiBase.dummy_dma2) ∧
    (0 : Nat) < csiStop.plane_count ∧
    (dummyVirt csiStop 0).isSome = true ∧
    Event.dmaFree 0 ∈ (sun4i_csi1_dummy_buffer_free csiStop).2.2 :=
  ⟨rfl, rfl, rfl,
   (dummy_buffer_free_idempotent csiBase (fun i => some (100 + i))).1
     rfl rfl rfl,
   by decide, by decide,
   (dummy_buffer_free_idempotent csiStop
     (fun i => some (100 + i))).2.2.2 0 (by decide) (by decide)⟩

/-- C2: at a concrete successful scratch-buffer allocation the recorded
trace shows all three dma_alloc_coherent calls issued between the
spinlock acquisition and its release: the allocation of DMA-capable
plane memory happens while the shared buffer lock is held, contrary to
the specified locking discipline (the code takes spin_lock_irqsave and
then calls dma_alloc_coherent with GFP_KERNEL inside the critical
section). -/
theorem dummy_buffer_alloc_under_lock :
    (sun4i_csi1_dummy_buffer_alloc (fun i => some (100 + i)) csiBase).2.2 =
      [Event.lock, Event.unlock, Event.lock, Event.dmaAlloc 0 true,
       Event.dmaAlloc 1 true, Event.dmaAlloc 2 true, Event.unlock] ∧
    allocUnderLock
      (sun4i_csi1_dummy_buffer_alloc (fun i => some (100 + i)) csiBase).2.2
      0 = true := by
  constructor <;> rfl

/-- C9: after the fixed format is installed, any requested format that
differs from the stored one in buffer type, width, height, plane count,
any in-range per-plane bytes-per-line or image size, pixel format,
field, colorspace, quantization or transfer function is rejected by the
set-format ioctl with -EINVAL and the driver state is returned
unchanged, so there is no side effect and no streaming state change. -/
theorem format_set_mismatch_rejected (csi0 csi : Csi1) (w h : Nat)
    (hp vp : Bool) (fnew : V4l2Format)
    (hcsi : csi = sun4i_csi1_format_initialize csi0 w h hp vp)
    (hdiff :
      csi.v4l2_format.type ≠ fnew.type ∨
      csi.v4l2_format.pix_mp.width ≠ fnew.pix_mp.width ∨
      csi.v4l2_format.pix_mp.height ≠ fnew.pix_mp.height ∨
      csi.v4l2_format.pix_mp.num_planes ≠ fnew.pix_mp.num_planes ∨
      (∃ i, i < csi.plane_count ∧
        ((planeFmt csi.v4l2_format.pix_mp i).bytesperline ≠
           (planeFmt fnew.pix_mp i).bytesperline ∨
         (planeFmt csi.v4l2_format.pix_mp i).sizeimage ≠
           (planeFmt fnew.pix_mp i).sizeimage)) ∨
      csi.v4l2_format.pix_mp.pixelformat ≠ fnew.pix_mp.pixelformat ∨
      csi.v4l2_format.pix_mp.field ≠ fnew.pix_mp.field ∨
      csi.v4l2_format.pix_mp.colorspace ≠ fnew.pix_mp.colorspace ∨
      csi.v4l2_format.pix_mp.quantization ≠ fnew.pix_mp.quantization ∨
      csi.v4l2_format.pix_mp.xfer_func ≠ fnew.pix_mp.xfer_func) :
    sun4i_csi1_ioctl_format_set csi fnew = (csi, -22) := by
  subst hcsi
  unfold sun4i_csi1_ioctl_format_set
  rw [Prod.mk.injEq]
  refine ⟨rfl, ?_⟩
  unfold sun4i_csi1_format_test
  dsimp only
  split_ifs with h1 h2 h3 h4
  · rfl
  · rfl
  · rfl
  · rfl
  · exfalso
    push_neg at h1 h2 h4
    obtain ⟨hw, hh, hpc⟩ := h2
    obtain ⟨hpf, hfld, hcs, hq, hx⟩ := h4
    simp only [List.any_eq_true, List.mem_range, Bool.or_eq_true,
      bne_iff_ne, ne_eq] at h3
    push_neg at h3
    rcases hdiff with hd | hd | hd | hd | ⟨i, hi, hd⟩ | hd | hd | hd | hd |
      hd
    · exact hd h1
    · exact hd hw
    · exact hd hh
    · exact hd hpc
    · match i with
      | 0 =>
        obtain ⟨hb, hs⟩ := h3 0 hi
        rcases hd with hd | hd
        · exact hd hb
        · exact hd hs
      | 1 =>
        obtain ⟨hb, hs⟩ := h3 1 hi
        rcases hd with hd | hd
        · exact hd hb
        · exact hd hs
      | 2 =>
        obtain ⟨hb, hs⟩ := h3 2 hi
        rcases hd with hd | hd
        · exact hd hb
        · exact hd hs
      | (n + 3) =>
        have hi3 : n + 3 < 3 := hi
        omega
    · exact hd hpf
    · exact hd hfld
    · exact hd hcs
    · exact hd hq
    · exact hd hx

/-- Witness for C9: the all-zero format differs in buffer type from the
installed fixed format and is rejected with -EINVAL without side
effects. -/
theorem format_set_mismatch_rejected_witness :
    sun4i_csi1_format_initialize csiBase 1920 1080 false false =
      sun4i_csi1_format_initialize csiBase 1920 1080 false false ∧
    ( sun4i_csi1_format_initialize csiBase 1920 1080 false
        false).v4l2_format.type ≠ fmtZero.type ∧
    sun4i_csi1_ioctl_format_set
        ( sun4i_csi1_format_initialize csiBase 1920 1080 false false)
        fmtZero =
      ( sun4i_csi1_format_initialize csiBase 1920 1080 false false, -22) :=
  ⟨rfl, by decide,
   format_set_mismatch_rejected csiBase _ 1920 1080 false false fmtZero rfl
     (Or.inl (by decide))⟩

/-- Helper: register accesses only change the register file; every
other field of the driver state is preserved by applyRegOps. -/
theorem applyRegOps_core (ops : List RegOp) : ∀ csi : Csi1,
    (applyRegOps csi ops).sequence = csi.sequence ∧
    (applyRegOps csi ops).buffers0 = csi.buffers0 ∧
    (applyRegOps csi ops).buffers1 = csi.buffers1 ∧
    (applyRegOps csi ops).buffer_list = csi.buffer_list ∧
    (applyRegOps csi ops).powered = csi.powered ∧
    (applyRegOps csi ops).vb2_bufs = csi.vb2_bufs ∧
    (applyRegOps csi ops).dummy_virt0 = csi.dummy_virt0 ∧
    (applyRegOps csi ops).dummy_virt1 = csi.dummy_virt1 ∧
    (applyRegOps csi ops).dummy_virt2 = csi.dummy_virt2 := by
  induction ops with
  | nil =>
    intro csi
    exact ⟨rfl, rfl, rfl, rfl, rfl, rfl, rfl, rfl, rfl⟩
  | cons op rest ih =>
    intro csi
    cases op <;> simpa [applyRegOps, sun4i_csi1_mask] using ih _

/-- Helper: when at least two buffers are queued, engine_start succeeds,
resets the sequence counter, seeds slots A and B with the first two
queued buffers in FIFO order and leaves the rest pending; the register
programming does not touch these fields. -/
theorem engine_start_projections (csi : Csi1) (b0 b1 : Buffer)
    (rest : List Buffer) (hl : csi.buffer_list = b0 :: b1 :: rest) :
    ∃ csi', sun4i_csi1_engine_start csi = some csi' ∧
      csi'.sequence = 0 ∧ csi'.buffers0 = some b0 ∧
      csi'.buffers1 = some b1 ∧ csi'.buffer_list = rest ∧
      csi'.powered = csi.powered := by
  unfold sun4i_csi1_engine_start
  rw [hl]
  refine ⟨_, rfl, ?_, ?_, ?_, ?_, ?_⟩ <;>
    simp [applyRegOps_core]

/-- C8: streamon requires at least 3 queued buffers (the vb2 core gate
with the driver's min_buffers_needed = 3); with fewer the result is an
insufficient-buffers error and the driver state is returned untouched,
so it stays Stopped; with enough buffers and a working power
environment, start succeeds and the first two queued buffers are popped
into hardware slots A and B in FIFO order, the rest staying pending. -/
theorem streamon_min_buffers (env : ClkEnv) (csi : Csi1) :
    (csi.buffer_list.length < 3 →
      vb2_streamon env csi =
        some (Except.error (Verr.insufficientBuffers, csi))) ∧
    (3 ≤ csi.buffer_list.length →
      env.reset_deassert = 0 → env.bus_enable = 0 → env.ram_enable = 0 →
      env.module_enable = 0 →
      ∃ b0 b1 rest csi', csi.buffer_list = b0 :: b1 :: rest ∧
        vb2_streamon env csi = some (Except.ok csi') ∧
        csi'.buffers0 = some b0 ∧ csi'.buffers1 = some b1 ∧
        csi'.buffer_list = rest ∧ csi'.sequence = 0 ∧
        csi'.powered = true) := by
  constructor
  · intro hlt
    simp [vb2_streamon, vb2_min_buffers_needed, hlt]
  · intro hge h1 h2 h3 h4
    obtain ⟨b0, b1, rest, hl⟩ :
        ∃ b0 b1 rest, csi.buffer_list = b0 :: b1 :: rest := by
      cases hcl : csi.buffer_list with
      | nil =>
        rw [hcl] at hge
        simp at hge
      | cons a l =>
        cases hcl2 : l with
        | nil =>
          rw [hcl, hcl2] at hge
          simp at hge
        | cons a2 l2 => exact ⟨a, a2, l2, rfl⟩
    obtain ⟨csi', hes, hseq, hb0, hb1, hbl, hpow⟩ :=
      engine_start_projections
        { sun4i_csi1_mask csi SUN4I_CSI1_ENABLE 0x01 0x01 with
          powered := true } b0 b1 rest (by simpa using hl)
    have hss : sun4i_csi1_streaming_start env csi = some (0, csi') := by
      unfold sun4i_csi1_streaming_start
      simp [sun4i_csi1_poweron, h1, h2, h3, h4, hes]
    have hnl : ¬ csi.buffer_list.length < vb2_min_buffers_needed := by
      simp only [vb2_min_buffers_needed]
      omega
    refine ⟨b0, b1, rest, csi', hl, ?_, hb0, hb1, hbl, hseq, ?_⟩
    · simp [vb2_streamon, hnl, hss]
    · rw [hpow]

/-- Witness for C8: two queued buffers are rejected with the
insufficient-buffers error; three queued buffers start successfully
with bufA in slot A, bufB in slot B and bufC still pending. -/
theorem streamon_min_buffers_witness :
    ({ csiBase with buffer_list := [bufA, bufB] } : Csi1).buffer_list.length
      < 3 ∧
    vb2_streamon envOk { csiBase with buffer_list := [bufA, bufB] } =
      some (Except.error (Verr.insufficientBuffers,
        { csiBase with buffer_list := [bufA, bufB] })) ∧
    3 ≤ ({ csiBase with
      buffer_list := [bufA, bufB, bufC] } : Csi1).buffer_list.length ∧
    (∃ b0 b1 rest csi',
      ({ csiBase with
        buffer_list := [bufA, bufB, bufC] } : Csi1).buffer_list =
          b0 :: b1 :: rest ∧
      vb2_streamon envOk { csiBase with buffer_list := [bufA, bufB, bufC] } =
        some (Except.ok csi') ∧
      csi'.buffers0 = some b0 ∧ csi'.buffers1 = some b1 ∧
      csi'.buffer_list = rest ∧ csi'.sequence = 0 ∧
      csi'.powered = true) :=
  ⟨by decide,
   (streamon_min_buffers envOk
     { csiBase with buffer_list := [bufA, bufB] }).1 (by decide),
   by decide,
   (streamon_min_buffers envOk
     { csiBase with buffer_list := [bufA, bufB, bufC] }).2 (by decide)
     rfl rfl rfl rfl⟩

/-- Helper: frame_done at even sequence with a queued buffer: slot A is
retired and reseeded from the FIFO head, slot-A registers are written. -/
theorem frame_done_eq_cons_0 (c : Csi1) (old nb : Buffer)
    (l : List Buffer) (hp : c.sequence % 2 = 0)
    (hs : c.buffers0 = some old) (hl : c.buffer_list = nb :: l) :
    sun4i_csi1_frame_done c = some
      (sun4i_csi1_write (sun4i_csi1_write (sun4i_csi1_write
        { c with
          sequence := c.sequence + 1, buffer_list := l,
          buffers0 := some nb }
        SUN4I_CSI1_FIFO0_BUFFER_A nb.dma0)
        SUN4I_CSI1_FIFO1_BUFFER_A nb.dma1)
        SUN4I_CSI1_FIFO2_BUFFER_A nb.dma2,
       [Event.lock,
        Event.regWrite SUN4I_CSI1_FIFO0_BUFFER_A nb.dma0,
        Event.regWrite SUN4I_CSI1_FIFO1_BUFFER_A nb.dma1,
        Event.regWrite SUN4I_CSI1_FIFO2_BUFFER_A nb.dma2,
        Event.unlock, Event.timestampSet old.id,
        Event.sequenceSet old.id c.sequence,
        Event.bufferDone old.id false]) := by
  simp [sun4i_csi1_frame_done, Nat.and_one_is_mod, hp, hs, hl,
    fifoProgram, slotSet]

/-- Helper: frame_done at odd sequence with a queued buffer: slot B is
retired and reseeded from the FIFO head, slot-B registers are written. -/
theorem frame_done_eq_cons_1 (c : Csi1) (old nb : Buffer)
    (l : List Buffer) (hp : c.sequence % 2 = 1)
    (hs : c.buffers1 = some old) (hl : c.buffer_list = nb :: l) :
    sun4i_csi1_frame_done c = some
      (sun4i_csi1_write (sun4i_csi1_write (sun4i_csi1_write
        { c with
          sequence := c.sequence + 1, buffer_list := l,
          buffers1 := some nb }
        SUN4I_CSI1_FIFO0_BUFFER_B nb.dma0)
        SUN4I_CSI1_FIFO1_BUFFER_B nb.dma1)
        SUN4I_CSI1_FIFO2_BUFFER_B nb.dma2,
       [Event.lock,
        Event.regWrite SUN4I_CSI1_FIFO0_BUFFER_B nb.dma0,
        Event.regWrite SUN4I_CSI1_FIFO1_BUFFER_B nb.dma1,
        Event.regWrite SUN4I_CSI1_FIFO2_BUFFER_B nb.dma2,
        Event.unlock, Event.timestampSet old.id,
        Event.sequenceSet old.id c.sequence,
        Event.bufferDone old.id false]) := by
  simp [sun4i_csi1_frame_done, Nat.and_one_is_mod, hp, hs, hl,
    fifoProgram, slotSet]

/-- Helper: frame_done at even sequence with an empty queue: the module
enable bit is masked off, slot A receives the scratch addresses and
points at no consumer buffer. -/
theorem frame_done_eq_empty_0 (c : Csi1) (old : Buffer)
    (hp : c.sequence % 2 = 0) (hs : c.buffers0 = some old)
    (hl : c.buffer_list = []) :
    sun4i_csi1_frame_done c = some
      (sun4i_csi1_write (sun4i_csi1_write (sun4i_csi1_write
        { sun4i_csi1_mask { c with sequence := c.sequence + 1 }
            SUN4I_CSI1_ENABLE 0 0x01 with buffers0 := none }
        SUN4I_CSI1_FIFO0_BUFFER_A c.dummy_dma0)
        SUN4I_CSI1_FIFO1_BUFFER_A c.dummy_dma1)
        SUN4I_CSI1_FIFO2_BUFFER_A c.dummy_dma2,
       [Event.lock,
        Event.regWrite SUN4I_CSI1_ENABLE
          (sun4i_csi1_mask_value (c.regs SUN4I_CSI1_ENABLE) 0 0x01),
        Event.regWrite SUN4I_CSI1_FIFO0_BUFFER_A c.dummy_dma0,
        Event.regWrite SUN4I_CSI1_FIFO1_BUFFER_A c.dummy_dma1,
        Event.regWrite SUN4I_CSI1_FIFO2_BUFFER_A c.dummy_dma2,
        Event.unlock, Event.timestampSet old.id,
        Event.sequenceSet old.id c.sequence,
        Event.bufferDone old.id false]) := by
  simp [sun4i_csi1_frame_done, Nat.and_one_is_mod, hp, hs, hl,
    fifoProgram, slotSet]

/-- Helper: frame_done at odd sequence with an empty queue: the module
enable bit is masked off, slot B receives the scratch addresses and
points at no consumer buffer. -/
theorem frame_done_eq_empty_1 (c : Csi1) (old : Buffer)
    (hp : c.sequence % 2 = 1) (hs : c.buffers1 = some old)
    (hl : c.buffer_list = []) :
    sun4i_csi1_frame_done c = some
      (sun4i_csi1_write (sun4i_csi1_write (sun4i_csi1_write
        { sun4i_csi1_mask { c with sequence := c.sequence + 1 }
            SUN4I_CSI1_ENABLE 0 0x01 with buffers1 := none }
        SUN4I_CSI1_FIFO0_BUFFER_B c.dummy_dma0)
        SUN4I_CSI1_FIFO1_BUFFER_B c.dummy_dma1)
        SUN4I_CSI1_FIFO2_BUFFER_B c.dummy_dma2,
       [Event.lock,
        Event.regWrite SUN4I_CSI1_ENABLE
          (sun4i_csi1_mask_value (c.regs SUN4I_CSI1_ENABLE) 0 0x01),
        Event.regWrite SUN4I_CSI1_FIFO0_BUFFER_B c.dummy_dma0,
        Event.regWrite SUN4I_CSI1_FIFO1_BUFFER_B c.dummy_dma1,
        Event.regWrite SUN4I_CSI1_FIFO2_BUFFER_B c.dummy_dma2,
        Event.unlock, Event.timestampSet old.id,
        Event.sequenceSet old.id c.sequence,
        Event.bufferDone old.id false]) := by
  simp [sun4i_csi1_frame_done, Nat.and_one_is_mod, hp, hs, hl,
    fifoProgram, slotSet]

/-- Helper: characterization of any successful frame-done invocation:
the retired slot is index sequence mod 2 and held a buffer, the
sequence counter advances by exactly one, the FIFO head (if any) moves
into the retired slot, the other slot is untouched, the retired buffer
is delivered tagged with the pre-increment sequence number, and the
timestamping/tagging/delivery all happen after the unlock. -/
theorem frame_done_char (c c' : Csi1) (ev : List Event)
    (h : sun4i_csi1_frame_done c = some (c', ev)) :
    ∃ old, slotGet c (c.sequence % 2) = some old ∧
      c'.sequence = c.sequence + 1 ∧
      c'.buffer_list = c.buffer_list.tail ∧
      deliveredSeqs ev = [(old.id, c.sequence)] ∧
      (∃ pre, ev = Event.lock :: pre ++
          [Event.unlock, Event.timestampSet old.id,
           Event.sequenceSet old.id c.sequence,
           Event.bufferDone old.id false] ∧
        Event.unlock ∉ Event.lock :: pre) ∧
      (∀ nb l, c.buffer_list = nb :: l →
        slotGet c' (c.sequence % 2) = some nb) ∧
      (c.buffer_list = [] → slotGet c' (c.sequence % 2) = none) ∧
      (c.sequence % 2 = 0 → c'.buffers1 = c.buffers1) ∧
      (c.sequence % 2 = 1 → c'.buffers0 = c.buffers0) := by
  rcases Nat.mod_two_eq_zero_or_one c.sequence with hp | hp
  · rcases hs : c.buffers0 with _ | old
    · simp [sun4i_csi1_frame_done, Nat.and_one_is_mod, hp, hs] at h
    · rcases hl : c.buffer_list with _ | ⟨nb, l⟩
      · rw [frame_done_eq_empty_0 c old hp hs hl] at h
        rw [Option.some.injEq, Prod.mk.injEq] at h
        obtain ⟨hc, he⟩ := h
        subst hc
        subst he
        refine ⟨old, ?_, ?_, ?_, ?_, ?_, ?_, ?_, ?_, ?_⟩
        · simp [slotGet, hp, hs]
        · simp [sun4i_csi1_mask]
        · simp [sun4i_csi1_mask, hl]
        · rfl
        · exact ⟨[Event.regWrite SUN4I_CSI1_ENABLE
              (sun4i_csi1_mask_value (c.regs SUN4I_CSI1_ENABLE) 0 0x01),
            Event.regWrite SUN4I_CSI1_FIFO0_BUFFER_A c.dummy_dma0,
            Event.regWrite SUN4I_CSI1_FIFO1_BUFFER_A c.dummy_dma1,
            Event.regWrite SUN4I_CSI1_FIFO2_BUFFER_A c.dummy_dma2],
            rfl, by simp⟩
        · intro nb l hx
          exact List.noConfusion hx
        · intro _
          simp [slotGet, hp, sun4i_csi1_mask]
        · intro _
          simp [sun4i_csi1_mask]
        · rw [hp]
          intro hx
          exact absurd hx (by decide)
      · rw [frame_done_eq_cons_0 c old nb l hp hs hl] at h
        rw [Option.some.injEq, Prod.mk.injEq] at h
        obtain ⟨hc, he⟩ := h
        subst hc
        subst he
        refine ⟨old, ?_, ?_, ?_, ?_, ?_, ?_, ?_, ?_, ?_⟩
        · simp [slotGet, hp, hs]
        · simp
        · simp
        · rfl
        · exact ⟨[Event.regWrite SUN4I_CSI1_FIFO0_BUFFER_A nb.dma0,
            Event.regWrite SUN4I_CSI1_FIFO1_BUFFER_A nb.dma1,
            Event.regWrite SUN4I_CSI1_FIFO2_BUFFER_A nb.dma2],
            rfl, by simp⟩
        · intro nb2 l2 hx
          injection hx with hx1 hx2
          subst hx1
          simp [slotGet, hp]
        · intro hx
          exact List.noConfusion hx
        · intro _
          simp
        · rw [hp]
          intro hx
          exact absurd hx (by decide)
  · rcases hs : c.buffers1 with _ | old
    · simp [sun4i_csi1_frame_done, Nat.and_one_is_mod, hp, hs] at h
    · rcases hl : c.buffer_list with _ | ⟨nb, l⟩
      · rw [frame_done_eq_empty_1 c old hp hs hl] at h
        rw [Option.some.injEq, Prod.mk.injEq] at h
        obtain ⟨hc, he⟩ := h
        subst hc
        subst he
        refine ⟨old, ?_, ?_, ?_, ?_, ?_, ?_, ?_, ?_, ?_⟩
        · simp [slotGet, hp, hs]
        · simp [sun4i_csi1_mask]
        · simp [sun4i_csi1_mask, hl]
        · rfl
        · exact ⟨[Event.regWrite SUN4I_CSI1_ENABLE
              (sun4i_csi1_mask_value (c.regs SUN4I_CSI1_ENABLE) 0 0x01),
            Event.regWrite SUN4I_CSI1_FIFO0_BUFFER_B c.dummy_dma0,
            Event.regWrite SUN4I_CSI1_FIFO1_BUFFER_B c.dummy_dma1,
            Event.regWrite SUN4I_CSI1_FIFO2_BUFFER_B c.dummy_dma2],
            rfl, by simp⟩
        · intro nb l hx
          exact List.noConfusion hx
        · intro _
          simp [slotGet, hp, sun4i_csi1_mask]
        · rw [hp]
          intro hx
          exact absurd hx (by decide)
        · intro _
          simp [sun4i_csi1_mask]
      · rw [frame_done_eq_cons_1 c old nb l hp hs hl] at h
        rw [Option.some.injEq, Prod.mk.injEq] at h
        obtain ⟨hc, he⟩ := h
        subst hc
        subst he
        refine ⟨old, ?_, ?_, ?_, ?_, ?_, ?_, ?_, ?_, ?_⟩
        · simp [slotGet, hp, hs]
        · simp
        · simp
        · rfl
        · exact ⟨[Event.regWrite SUN4I_CSI1_FIFO0_BUFFER_B nb.dma0,
            Event.regWrite SUN4I_CSI1_FIFO1_BUFFER_B nb.dma1,
            Event.regWrite SUN4I_CSI1_FIFO2_BUFFER_B nb.dma2],
            rfl, by simp⟩
        · intro nb2 l2 hx
          injection hx with hx1 hx2
          subst hx1
          simp [slotGet, hp]
        · intro hx
          exact List.noConfusion hx
        · rw [hp]
          intro hx
          exact absurd hx (by decide)
        · intro _
          simp

/-- C1 (amended): for every frame-complete invocation whose retired
slot holds a buffer, the scratch buffer is installed into the retired
slot if and only if the pending queue was empty at swap time; in that
case the scratch plane addresses are programmed into the retired slot's
FIFO buffer-pointer registers and the module-enable bit (bit 0 of the
ENABLE register) is cleared so no further frame-complete signals are
raised until re-armed, while the capture-enable bit's register (the
CAPTURE register) is left unchanged. -/
theorem frame_done_scratch_install (c : Csi1)
    (hslot : (slotGet c (c.sequence % 2)).isSome = true) :
    ∃ c' ev, sun4i_csi1_frame_done c = some (c', ev) ∧
      (c.buffer_list = [] ↔ slotGet c' (c.sequence % 2) = none) ∧
      (c.buffer_list = [] →
        (c.sequence % 2 = 0 →
          c'.regs SUN4I_CSI1_FIFO0_BUFFER_A = c.dummy_dma0 ∧
          c'.regs SUN4I_CSI1_FIFO1_BUFFER_A = c.dummy_dma1 ∧
          c'.regs SUN4I_CSI1_FIFO2_BUFFER_A = c.dummy_dma2) ∧
        (c.sequence % 2 = 1 →
          c'.regs SUN4I_CSI1_FIFO0_BUFFER_B = c.dummy_dma0 ∧
          c'.regs SUN4I_CSI1_FIFO1_BUFFER_B = c.dummy_dma1 ∧
          c'.regs SUN4I_CSI1_FIFO2_BUFFER_B = c.dummy_dma2) ∧
        (c'.regs SUN4I_CSI1_ENABLE).testBit 0 = false ∧
        c'.regs SUN4I_CSI1_CAPTURE = c.regs SUN4I_CSI1_CAPTURE) := by
  have hbit : (Nat.xor 0x01 0xFFFFFFFF).testBit 0 = false := by decide
  rcases Nat.mod_two_eq_zero_or_one c.sequence with hp | hp
  · rcases hs : c.buffers0 with _ | old
    · rw [slotGet, hp] at hslot
      simp [hs] at hslot
    · rcases hl : c.buffer_list with _ | ⟨nb, l⟩
      · refine ⟨_, _, frame_done_eq_empty_0 c old hp hs hl, ?_, ?_⟩
        · constructor
          · intro _
            simp [slotGet, hp, sun4i_csi1_mask]
          · intro _
            rfl
        · intro _
          refine ⟨?_, ?_, ?_, ?_⟩
          · intro _
            refine ⟨?_, ?_, ?_⟩ <;>
              simp [SUN4I_CSI1_ENABLE, SUN4I_CSI1_FIFO0_BUFFER_A,
                SUN4I_CSI1_FIFO1_BUFFER_A, SUN4I_CSI1_FIFO2_BUFFER_A,
                sun4i_csi1_mask]
          · rw [hp]
            intro hx
            exact absurd hx (by decide)
          · simp [SUN4I_CSI1_ENABLE, SUN4I_CSI1_FIFO0_BUFFER_A,
              SUN4I_CSI1_FIFO1_BUFFER_A, SUN4I_CSI1_FIFO2_BUFFER_A,
              sun4i_csi1_mask, sun4i_csi1_mask_value, Nat.testBit_or,
              Nat.testBit_and, hbit]
          · simp [SUN4I_CSI1_ENABLE, SUN4I_CSI1_CAPTURE,
              SUN4I_CSI1_FIFO0_BUFFER_A, SUN4I_CSI1_FIFO1_BUFFER_A,
              SUN4I_CSI1_FIFO2_BUFFER_A, sun4i_csi1_mask]
      · refine ⟨_, _, frame_done_eq_cons_0 c old nb l hp hs hl, ?_, ?_⟩
        · simp [slotGet, hp]
        · intro hx
          exact List.noConfusion hx
  · rcases hs : c.buffers1 with _ | old
    · rw [slotGet, hp] at hslot
      simp [hs] at hslot
    · rcases hl : c.buffer_list with _ | ⟨nb, l⟩
      · refine ⟨_, _, frame_done_eq_empty_1 c old hp hs hl, ?_, ?_⟩
        · constructor
          · intro _
            simp [slotGet, hp, sun4i_csi1_mask]
          · intro _
            rfl
        · intro _
          refine ⟨?_, ?_, ?_, ?_⟩
          · rw [hp]
            intro hx
            exact absurd hx (by decide)
          · intro _
            refine ⟨?_, ?_, ?_⟩ <;>
              simp [SUN4I_CSI1_ENABLE, SUN4I_CSI1_FIFO0_BUFFER_B,
                SUN4I_CSI1_FIFO1_BUFFER_B, SUN4I_CSI1_FIFO2_BUFFER_B,
                sun4i_csi1_mask]
          · simp [SUN4I_CSI1_ENABLE, SUN4I_CSI1_FIFO0_BUFFER_B,
              SUN4I_CSI1_FIFO1_BUFFER_B, SUN4I_CSI1_FIFO2_BUFFER_B,
              sun4i_csi1_mask, sun4i_csi1_mask_value, Nat.testBit_or,
              Nat.testBit_and, hbit]
          · simp [SUN4I_CSI1_ENABLE, SUN4I_CSI1_CAPTURE,
              SUN4I_CSI1_FIFO0_BUFFER_B, SUN4I_CSI1_FIFO1_BUFFER_B,
              SUN4I_CSI1_FIFO2_BUFFER_B, sun4i_csi1_mask]
      · refine ⟨_, _, frame_done_eq_cons_1 c old nb l hp hs hl, ?_, ?_⟩
        · simp [slotGet, hp]
        · intro hx
          exact List.noConfusion hx

/-- C1 counterexample: in the starved state csiStarve the queue is
empty and the scratch buffer is installed on frame completion, but the
capture-enable bit (bit 1 of the CAPTURE register, the bit engine_start
asserts and engine_stop clears) remains set afterwards; what is cleared
is bit 0 of the ENABLE register (module enable), so the claim that the
capture-enable bit is cleared is false on the code. -/
theorem frame_done_capture_bit_not_cleared :
    csiStarve.buffer_list = [] ∧
    (sun4i_csi1_frame_done csiStarve).map
      (fun p => ((p.1.regs SUN4I_CSI1_CAPTURE).testBit 1,
                 (p.1.regs SUN4I_CSI1_ENABLE).testBit 0,
                 slotGet p.1 (csiStarve.sequence % 2))) =
      some (true, false, none) := by
  constructor
  · rfl
  · rfl

/-- Witness for C1 at the starved state: slot A holds bufA, the queue
is empty, and the amended conclusions follow. -/
theorem frame_done_scratch_install_witness :
    (slotGet csiStarve (csiStarve.sequence % 2)).isSome = true ∧
    (∃ c' ev, sun4i_csi1_frame_done csiStarve = some (c', ev) ∧
      (csiStarve.buffer_list = [] ↔
        slotGet c' (csiStarve.sequence % 2) = none) ∧
      (csiStarve.buffer_list = [] →
        (csiStarve.sequence % 2 = 0 →
          c'.regs SUN4I_CSI1_FIFO0_BUFFER_A = csiStarve.dummy_dma0 ∧
          c'.regs SUN4I_CSI1_FIFO1_BUFFER_A = csiStarve.dummy_dma1 ∧
          c'.regs SUN4I_CSI1_FIFO2_BUFFER_A = csiStarve.dummy_dma2) ∧
        (csiStarve.sequence % 2 = 1 →
          c'.regs SUN4I_CSI1_FIFO0_BUFFER_B = csiStarve.dummy_dma0 ∧
          c'.regs SUN4I_CSI1_FIFO1_BUFFER_B = csiStarve.dummy_dma1 ∧
          c'.regs SUN4I_CSI1_FIFO2_BUFFER_B = csiStarve.dummy_dma2) ∧
        (c'.regs SUN4I_CSI1_ENABLE).testBit 0 = false ∧
        c'.regs SUN4I_CSI1_CAPTURE = csiStarve.regs SUN4I_CSI1_CAPTURE)) :=
  ⟨by decide, frame_done_scratch_install csiStarve (by decide)⟩

/-- C6: every frame-complete swap retires and reprograms the hardware
slot whose index is the running sequence number mod 2: the delivered
buffer is the one held by that slot, the FIFO buffer-pointer writes of
the invocation hit exactly the three slot-A registers when the index is
0 and exactly the three slot-B registers when it is 1, and the other
slot's registers keep their values. -/
theorem frame_done_slot_parity (c : Csi1)
    (hslot : (slotGet c (c.sequence % 2)).isSome = true) :
    ∃ c' ev, sun4i_csi1_frame_done c = some (c', ev) ∧
      (∃ old, slotGet c (c.sequence % 2) = some old ∧
        Event.sequenceSet old.id c.sequence ∈ ev) ∧
      (c.sequence % 2 = 0 →
        fifoWriteAddrs ev = [SUN4I_CSI1_FIFO0_BUFFER_A,
          SUN4I_CSI1_FIFO1_BUFFER_A, SUN4I_CSI1_FIFO2_BUFFER_A] ∧
        c'.regs SUN4I_CSI1_FIFO0_BUFFER_B =
          c.regs SUN4I_CSI1_FIFO0_BUFFER_B ∧
        c'.regs SUN4I_CSI1_FIFO1_BUFFER_B =
          c.regs SUN4I_CSI1_FIFO1_BUFFER_B ∧
        c'.regs SUN4I_CSI1_FIFO2_BUFFER_B =
          c.regs SUN4I_CSI1_FIFO2_BUFFER_B) ∧
      (c.sequence % 2 = 1 →
        fifoWriteAddrs ev = [SUN4I_CSI1_FIFO0_BUFFER_B,
          SUN4I_CSI1_FIFO1_BUFFER_B, SUN4I_CSI1_FIFO2_BUFFER_B] ∧
        c'.regs SUN4I_CSI1_FIFO0_BUFFER_A =
          c.regs SUN4I_CSI1_FIFO0_BUFFER_A ∧
        c'.regs SUN4I_CSI1_FIFO1_BUFFER_A =
          c.regs SUN4I_CSI1_FIFO1_BUFFER_A ∧
        c'.regs SUN4I_CSI1_FIFO2_BUFFER_A =
          c.regs SUN4I_CSI1_FIFO2_BUFFER_A) := by
  rcases Nat.mod_two_eq_zero_or_one c.sequence with hp | hp
  · rcases hs : c.buffers0 with _ | old
    · rw [slotGet, hp] at hslot
      simp [hs] at hslot
    · rcases hl : c.buffer_list with _ | ⟨nb, l⟩
      · refine ⟨_, _, frame_done_eq_empty_0 c old hp hs hl,
          ⟨old, by simp [slotGet, hp, hs], by simp⟩, ?_, ?_⟩
        · intro _
          refine ⟨rfl, ?_, ?_, ?_⟩ <;>
            simp [SUN4I_CSI1_ENABLE, SUN4I_CSI1_FIFO0_BUFFER_A,
              SUN4I_CSI1_FIFO1_BUFFER_A, SUN4I_CSI1_FIFO2_BUFFER_A,
              SUN4I_CSI1_FIFO0_BUFFER_B, SUN4I_CSI1_FIFO1_BUFFER_B,
              SUN4I_CSI1_FIFO2_BUFFER_B, sun4i_csi1_mask]
        · rw [hp]
          intro hx
          exact absurd hx (by decide)
      · refine ⟨_, _, frame_done_eq_cons_0 c old nb l hp hs hl,
          ⟨old, by simp [slotGet, hp, hs], by simp⟩, ?_, ?_⟩
        · intro _
          refine ⟨rfl, ?_, ?_, ?_⟩ <;>
            simp [SUN4I_CSI1_FIFO0_BUFFER_A, SUN4I_CSI1_FIFO1_BUFFER_A,
              SUN4I_CSI1_FIFO2_BUFFER_A, SUN4I_CSI1_FIFO0_BUFFER_B,
              SUN4I_CSI1_FIFO1_BUFFER_B, SUN4I_CSI1_FIFO2_BUFFER_B]
        · rw [hp]
          intro hx
          exact absurd hx (by decide)
  · rcases hs : c.buffers1 with _ | old
    · rw [slotGet, hp] at hslot
      simp [hs] at hslot
    · rcases hl : c.buffer_list with _ | ⟨nb, l⟩
      · refine ⟨_, _, frame_done_eq_empty_1 c old hp hs hl,
          ⟨old, by simp [slotGet, hp, hs], by simp⟩, ?_, ?_⟩
        · rw [hp]
          intro hx
          exact absurd hx (by decide)
        · intro _
          refine ⟨rfl, ?_, ?_, ?_⟩ <;>
            simp [SUN4I_CSI1_ENABLE, SUN4I_CSI1_FIFO0_BUFFER_A,
              SUN4I_CSI1_FIFO1_BUFFER_A, SUN4I_CSI1_FIFO2_BUFFER_A,
              SUN4I_CSI1_FIFO0_BUFFER_B, SUN4I_CSI1_FIFO1_BUFFER_B,
              SUN4I_CSI1_FIFO2_BUFFER_B, sun4i_csi1_mask]
      · refine ⟨_, _, frame_done_eq_cons_1 c old nb l hp hs hl,
          ⟨old, by simp [slotGet, hp, hs], by simp⟩, ?_, ?_⟩
        · rw [hp]
          intro hx
          exact absurd hx (by decide)
        · intro _
          refine ⟨rfl, ?_, ?_, ?_⟩ <;>
            simp [SUN4I_CSI1_FIFO0_BUFFER_A, SUN4I_CSI1_FIFO1_BUFFER_A,
              SUN4I_CSI1_FIFO2_BUFFER_A, SUN4I_CSI1_FIFO0_BUFFER_B,
              SUN4I_CSI1_FIFO1_BUFFER_B, SUN4I_CSI1_FIFO2_BUFFER_B]

/-- Witness for C6 at a streaming state with both slots seeded, one
pending buffer and an even sequence number. -/
theorem frame_done_slot_parity_witness :
    (slotGet { csiBase with
        buffers0 := some bufA, buffers1 := some bufB,
        buffer_list := [bufC] }
      (({ csiBase with
          buffers0 := some bufA, buffers1 := some bufB,
          buffer_list := [bufC] } : Csi1).sequence % 2)).isSome = true ∧
    (∃ c' ev, sun4i_csi1_frame_done { csiBase with
        buffers0 := some bufA, buffers1 := some bufB,
        buffer_list := [bufC] } = some (c', ev) ∧
      (∃ old, slotGet { csiBase with
          buffers0 := some bufA, buffers1 := some bufB,
          buffer_list := [bufC] }
          (({ csiBase with
              buffers0 := some bufA, buffers1 := some bufB,
              buffer_list := [bufC] } : Csi1).sequence % 2) = some old ∧
        Event.sequenceSet old.id ({ csiBase with
          buffers0 := some bufA, buffers1 := some bufB,
          buffer_list := [bufC] } : Csi1).sequence ∈ ev) ∧
      (({ csiBase with
          buffers0 := some bufA, buffers1 := some bufB,
          buffer_list := [bufC] } : Csi1).sequence % 2 = 0 →
        fifoWriteAddrs ev = [SUN4I_CSI1_FIFO0_BUFFER_A,
          SUN4I_CSI1_FIFO1_BUFFER_A, SUN4I_CSI1_FIFO2_BUFFER_A] ∧
        c'.regs SUN4I_CSI1_FIFO0_BUFFER_B =
          ({ csiBase with
            buffers0 := some bufA, buffers1 := some bufB,
            buffer_list := [bufC] } : Csi1).regs SUN4I_CSI1_FIFO0_BUFFER_B ∧
        c'.regs SUN4I_CSI1_FIFO1_BUFFER_B =
          ({ csiBase with
            buffers0 := some bufA, buffers1 := some bufB,
            buffer_list := [bufC] } : Csi1).regs SUN4I_CSI1_FIFO1_BUFFER_B ∧
        c'.regs SUN4I_CSI1_FIFO2_BUFFER_B =
          ({ csiBase with
            buffers0 := some bufA, buffers1 := some bufB,
            buffer_list := [bufC] } : Csi1).regs SUN4I_CSI1_FIFO2_BUFFER_B) ∧
      (({ csiBase with
          buffers0 := some bufA, buffers1 := some bufB,
          buffer_list := [bufC] } : Csi1).sequence % 2 = 1 →
        fifoWriteAddrs ev = [SUN4I_CSI1_FIFO0_BUFFER_B,
          SUN4I_CSI1_FIFO1_BUFFER_B, SUN4I_CSI1_FIFO2_BUFFER_B] ∧
        c'.regs SUN4I_CSI1_FIFO0_BUFFER_A =
          ({ csiBase with
            buffers0 := some bufA, buffers1 := some bufB,
            buffer_list := [bufC] } : Csi1).regs SUN4I_CSI1_FIFO0_BUFFER_A ∧
        c'.regs SUN4I_CSI1_FIFO1_BUFFER_A =
          ({ csiBase with
            buffers0 := some bufA, buffers1 := some bufB,
            buffer_list := [bufC] } : Csi1).regs SUN4I_CSI1_FIFO1_BUFFER_A ∧
        c'.regs SUN4I_CSI1_FIFO2_BUFFER_A =
          ({ csiBase with
            buffers0 := some bufA, buffers1 := some bufB,
            buffer_list := [bufC] } : Csi1).regs
              SUN4I_CSI1_FIFO2_BUFFER_A)) :=
  ⟨by decide, frame_done_slot_parity { csiBase with
      buffers0 := some bufA, buffers1 := some bufB,
      buffer_list := [bufC] } (by decide)⟩

/-- Helper: with both slots seeded and at least n pending buffers, n
frame-done invocations succeed and deliver n buffers whose tags are the
n consecutive sequence numbers starting at the current counter, which
ends up advanced by exactly n. -/
theorem frameDoneRun_spec : ∀ (n : Nat) (c : Csi1),
    c.buffers0.isSome = true → c.buffers1.isSome = true →
    n ≤ c.buffer_list.length →
    ∃ cF ds, frameDoneRun c n = some (cF, ds) ∧
      ds.map Prod.snd = (List.range n).map (fun k => c.sequence + k) ∧
      cF.sequence = c.sequence + n := by
  intro n
  induction n with
  | zero =>
    intro c _ _ _
    exact ⟨c, [], rfl, by simp, by simp⟩
  | succ n ih =>
    intro c h0 h1 hlen
    obtain ⟨nb, l, hl⟩ : ∃ nb l, c.buffer_list = nb :: l := by
      cases hcl : c.buffer_list with
      | nil =>
        rw [hcl] at hlen
        simp at hlen
      | cons a t => exact ⟨a, t, rfl⟩
    have hlen2 : n ≤ l.length := by
      rw [hl] at hlen
      simp at hlen
      omega
    rcases Nat.mod_two_eq_zero_or_one c.sequence with hp | hp
    · obtain ⟨old, hs⟩ := Option.isSome_iff_exists.mp h0
      have heq := frame_done_eq_cons_0 c old nb l hp hs hl
      obtain ⟨cF, ds, hrun, hmap, hseq⟩ := ih
        (sun4i_csi1_write (sun4i_csi1_write (sun4i_csi1_write
          { c with
            sequence := c.sequence + 1, buffer_list := l,
            buffers0 := some nb }
          SUN4I_CSI1_FIFO0_BUFFER_A nb.dma0)
          SUN4I_CSI1_FIFO1_BUFFER_A nb.dma1)
          SUN4I_CSI1_FIFO2_BUFFER_A nb.dma2)
        (by simp) (by simpa using h1) (by simpa using hlen2)
      refine ⟨cF, (old.id, c.sequence) :: ds, ?_, ?_, ?_⟩
      · simp only [frameDoneRun, heq, hrun]
        rfl
      · simp only [List.map_cons, hmap]
        rw [List.range_succ_eq_map]
        simp only [List.map_cons, List.map_map]
        rw [List.cons.injEq]
        refine ⟨by omega, ?_⟩
        apply List.map_congr_left
        intro a _
        simp only [write_sequence, Function.comp_apply]
        show c.sequence + 1 + a = c.sequence + (a + 1)
        omega
      · rw [hseq]
        simp only [write_sequence]
        show c.sequence + 1 + n = c.sequence + (n + 1)
        omega
    · obtain ⟨old, hs⟩ := Option.isSome_iff_exists.mp h1
      have heq := frame_done_eq_cons_1 c old nb l hp hs hl
      obtain ⟨cF, ds, hrun, hmap, hseq⟩ := ih
        (sun4i_csi1_write (sun4i_csi1_write (sun4i_csi1_write
          { c with
            sequence := c.sequence + 1, buffer_list := l,
            buffers1 := some nb }
          SUN4I_CSI1_FIFO0_BUFFER_B nb.dma0)
          SUN4I_CSI1_FIFO1_BUFFER_B nb.dma1)
          SUN4I_CSI1_FIFO2_BUFFER_B nb.dma2)
        (by simpa using h0) (by simp) (by simpa using hlen2)
      refine ⟨cF, (old.id, c.sequence) :: ds, ?_, ?_, ?_⟩
      · simp only [frameDoneRun, heq, hrun]
        rfl
      · simp only [List.map_cons, hmap]
        rw [List.range_succ_eq_map]
        simp only [List.map_cons, List.map_map]
        rw [List.cons.injEq]
        refine ⟨by omega, ?_⟩
        apply List.map_congr_left
        intro a _
        simp only [write_sequence, Function.comp_apply]
        show c.sequence + 1 + a = c.sequence + (a + 1)
        omega
      · rw [hseq]
        simp only [write_sequence]
        show c.sequence + 1 + n = c.sequence + (n + 1)
        omega

/-- C5: within one streaming session the delivered buffers carry
strictly increasing, contiguous sequence numbers starting at 0: the
engine start resets the counter to 0, a run of n frame-done swaps (with
enough queued buffers) delivers tags 0..n-1 in order and leaves the
counter at n, and every single frame-done invocation increments the
counter exactly once, tags the retired buffer with the pre-increment
value and takes the timestamp after the lock release. -/
theorem frame_done_sequencing (c : Csi1) (n : Nat)
    (hlen : 2 + n ≤ c.buffer_list.length) :
    ∃ s0, sun4i_csi1_engine_start c = some s0 ∧ s0.sequence = 0 ∧
      (∃ sF ds, frameDoneRun s0 n = some (sF, ds) ∧
        ds.map Prod.snd = List.range n ∧ sF.sequence = n) ∧
      (∀ d d' ev, sun4i_csi1_frame_done d = some (d', ev) →
        d'.sequence = d.sequence + 1 ∧
        ∃ old pre, slotGet d (d.sequence % 2) = some old ∧
          deliveredSeqs ev = [(old.id, d.sequence)] ∧
          ev = Event.lock :: pre ++
            [Event.unlock, Event.timestampSet old.id,
             Event.sequenceSet old.id d.sequence,
             Event.bufferDone old.id false] ∧
          Event.unlock ∉ Event.lock :: pre) := by
  obtain ⟨b0, b1, rest, hl⟩ :
      ∃ b0 b1 rest, c.buffer_list = b0 :: b1 :: rest := by
    cases hcl : c.buffer_list with
    | nil =>
      rw [hcl] at hlen
      simp at hlen
    | cons a t =>
      cases hcl2 : t with
      | nil =>
        rw [hcl, hcl2] at hlen
        simp at hlen
        omega
      | cons a2 t2 => exact ⟨a, a2, t2, rfl⟩
  obtain ⟨s0, hes, hseq0, hb0, hb1, hbl, _⟩ :=
    engine_start_projections c b0 b1 rest hl
  have hrest : n ≤ rest.length := by
    rw [hl] at hlen
    simp at hlen
    omega
  refine ⟨s0, hes, hseq0, ?_, ?_⟩
  · obtain ⟨sF, ds, h1, h2, h3⟩ := frameDoneRun_spec n s0
      (by rw [hb0]; rfl) (by rw [hb1]; rfl) (by rw [hbl]; exact hrest)
    refine ⟨sF, ds, h1, ?_, ?_⟩
    · rw [h2, hseq0]
      simp
    · rw [h3, hseq0]
      omega
  · intro d d' ev h
    obtain ⟨old, hslot, hs1, _, hdel, ⟨pre, hpre, hnot⟩, _⟩ :=
      frame_done_char d d' ev h
    exact ⟨hs1, old, pre, hslot, hdel, hpre, hnot⟩

/-- Witness for C5: session with three queued buffers and one completed
frame; the run delivers the single tag 0 and the counter ends at 1. -/
theorem frame_done_sequencing_witness :
    2 + 1 ≤ ({ csiBase with
      buffer_list := [bufA, bufB, bufC] } : Csi1).buffer_list.length ∧
    (∃ s0, sun4i_csi1_engine_start { csiBase with
        buffer_list := [bufA, bufB, bufC] } = some s0 ∧
      s0.sequence = 0 ∧
      (∃ sF ds, frameDoneRun s0 1 = some (sF, ds) ∧
        ds.map Prod.snd = List.range 1 ∧ sF.sequence = 1) ∧
      (∀ d d' ev, sun4i_csi1_frame_done d = some (d', ev) →
        d'.sequence = d.sequence + 1 ∧
        ∃ old pre, slotGet d (d.sequence % 2) = some old ∧
          deliveredSeqs ev = [(old.id, d.sequence)] ∧
          ev = Event.lock :: pre ++
            [Event.unlock, Event.timestampSet old.id,
             Event.sequenceSet old.id d.sequence,
             Event.bufferDone old.id false] ∧
          Event.unlock ∉ Event.lock :: pre)) :=
  ⟨by decide,
   frame_done_sequencing { csiBase with buffer_list := [bufA, bufB, bufC] }
     1 (by decide)⟩

/-- C3 (amended): stop_streaming clears the capture-enable bit (the
CAPTURE register is zeroed), completes every buffer still pending or
referenced by a hardware slot with an error status, drains the pending
queue, reverses the power sequence (module clock, RAM clock, bus clock,
reset, in that order, at the end of the trace) while ignoring
individual step outcomes, and leaves the state machine Stopped; the
Scratch Buffer, however, is not released by stop_streaming: the dummy
buffer allocation is left exactly as it was (it is freed only by queue
teardown or the next queue_setup). -/
theorem streaming_stop_spec (env : ClkEnv) (csi : Csi1)
    (hsub : ∀ b ∈ csi.buffer_list, b ∈ csi.vb2_bufs)
    (h0 : ∀ b ∈ csi.buffers0.toList, b ∈ csi.vb2_bufs)
    (h1 : ∀ b ∈ csi.buffers1.toList, b ∈ csi.vb2_bufs) :
    (sun4i_csi1_streaming_stop env csi).1.regs SUN4I_CSI1_CAPTURE = 0 ∧
    (∀ b, (b ∈ csi.buffer_list ∨ csi.buffers0 = some b ∨
        csi.buffers1 = some b) →
      Event.bufferDone b.id true ∈ (sun4i_csi1_streaming_stop env csi).2) ∧
    (sun4i_csi1_streaming_stop env csi).1.buffer_list = [] ∧
    (sun4i_csi1_streaming_stop env csi).1.powered = false ∧
    (∃ pre, (sun4i_csi1_streaming_stop env csi).2 =
      pre ++ [Event.moduleClkDisable, Event.ramClkDisable,
        Event.busClkDisable, Event.resetAssert]) ∧
    (∀ env', sun4i_csi1_streaming_stop env' csi =
      sun4i_csi1_streaming_stop env csi) ∧
    (sun4i_csi1_streaming_stop env csi).1.dummy_virt0 = csi.dummy_virt0 ∧
    (sun4i_csi1_streaming_stop env csi).1.dummy_virt1 = csi.dummy_virt1 ∧
    (sun4i_csi1_streaming_stop env csi).1.dummy_virt2 = csi.dummy_virt2 := by
  refine ⟨rfl, ?_, rfl, rfl, ?_, fun env' => rfl, rfl, rfl, rfl⟩
  · intro b hb
    have hbv : b ∈ csi.vb2_bufs := by
      rcases hb with hb | hb | hb
      · exact hsub b hb
      · exact h0 b (by simp [hb])
      · exact h1 b (by simp [hb])
    have hact : vb2_buffer_active (sun4i_csi1_engine_stop csi).1 b =
        true := by
      simp only [vb2_buffer_active, sun4i_csi1_engine_stop,
        write_buffer_list, write_buffers0, write_buffers1]
      simp only [Bool.or_eq_true, decide_eq_true_eq, beq_iff_eq]
      rcases hb with hb | hb | hb
      · exact Or.inl (Or.inl hb)
      · exact Or.inl (Or.inr hb)
      · exact Or.inr hb
    simp only [sun4i_csi1_streaming_stop, List.mem_append]
    refine Or.inl (Or.inl (Or.inr ?_))
    simp only [sun4i_csi1_buffers_mark_done]
    refine List.mem_flatMap.mpr ⟨b, hbv, ?_⟩
    rw [hact]
    simp
  · have hsuf : ∀ (X : List Event) (v : Nat),
        X ++ [Event.lock, Event.regWrite SUN4I_CSI1_ENABLE v,
          Event.unlock, Event.moduleClkDisable, Event.ramClkDisable,
          Event.busClkDisable, Event.resetAssert] =
        (X ++ [Event.lock, Event.regWrite SUN4I_CSI1_ENABLE v,
          Event.unlock]) ++ [Event.moduleClkDisable, Event.ramClkDisable,
          Event.busClkDisable, Event.resetAssert] := by
      intro X v
      simp
    exact ⟨_, hsuf _ _⟩

/-- C3 counterexample: streaming_stop leaves a previously allocated
scratch (dummy) buffer fully in place and performs no dma free at all,
contradicting the clause that the Scratch Buffer is released. -/
theorem streaming_stop_scratch_not_released :
    csiStop.dummy_virt0 = some 7 ∧
    (sun4i_csi1_streaming_stop envOk csiStop).1.dummy_virt0 = some 7 ∧
    (sun4i_csi1_streaming_stop envOk csiStop).1.dummy_virt1 = some 8 ∧
    (sun4i_csi1_streaming_stop envOk csiStop).1.dummy_virt2 = some 9 ∧
    (∀ i, Event.dmaFree i ∉ (sun4i_csi1_streaming_stop envOk csiStop).2) := by
  refine ⟨rfl, rfl, rfl, rfl, ?_⟩
  intro i
  simp [sun4i_csi1_streaming_stop, sun4i_csi1_engine_stop,
    sun4i_csi1_buffers_mark_done, sun4i_csi1_buffer_list_clear,
    sun4i_csi1_poweroff, csiStop, csiBase]

/-- Witness for C3 at the active streaming state csiActive. -/
theorem streaming_stop_spec_witness :
    (∀ b ∈ csiActive.buffer_list, b ∈ csiActive.vb2_bufs) ∧
    (∀ b ∈ csiActive.buffers0.toList, b ∈ csiActive.vb2_bufs) ∧
    (∀ b ∈ csiActive.buffers1.toList, b ∈ csiActive.vb2_bufs) ∧
    ((sun4i_csi1_streaming_stop envOk csiActive).1.regs
        SUN4I_CSI1_CAPTURE = 0 ∧
     (∀ b, (b ∈ csiActive.buffer_list ∨ csiActive.buffers0 = some b ∨
         csiActive.buffers1 = some b) →
       Event.bufferDone b.id true ∈
         (sun4i_csi1_streaming_stop envOk csiActive).2) ∧
     (sun4i_csi1_streaming_stop envOk csiActive).1.buffer_list = [] ∧
     (sun4i_csi1_streaming_stop envOk csiActive).1.powered = false ∧
     (∃ pre, (sun4i_csi1_streaming_stop envOk csiActive).2 =
       pre ++ [Event.moduleClkDisable, Event.ramClkDisable,
         Event.busClkDisable, Event.resetAssert]) ∧
     (∀ env', sun4i_csi1_streaming_stop env' csiActive =
       sun4i_csi1_streaming_stop envOk csiActive) ∧
     (sun4i_csi1_streaming_stop envOk csiActive).1.dummy_virt0 =
       csiActive.dummy_virt0 ∧
     (sun4i_csi1_streaming_stop envOk csiActive).1.dummy_virt1 =
       csiActive.dummy_virt1 ∧
     (sun4i_csi1_streaming_stop envOk csiActive).1.dummy_virt2 =
       csiActive.dummy_virt2) :=
  ⟨by decide, by decide, by decide,
   streaming_stop_spec envOk csiActive (by decide) (by decide) (by decide)⟩
